import Mathlib

/-!
Shallow embedding of the conformance-testing core of
`langchain-integration-health` (the `testers` package): the
`IntegrationTestResult` record, the base harness pipeline
(`run_all_tests`), the required-method presence check, the concrete
LLM / chat / embeddings probe strategies, and the compatibility
scoring function.

Python floats are modelled as exact rationals (`ℚ`); Python lists as
`List`; the `performance_metrics` dict as an insertion-ordered
association list with overwrite-on-rewrite; a raised exception as the
`Except`/`Option String` error component of a result.
-/

namespace LCIH

/-- `IntegrationTestResult` dataclass from `base_tester.py` (lines 10-22).
`test_timestamp` is an opaque token standing for the `datetime.now()`
value captured at construction. -/
structure IntegrationTestResult where
  integration_name : String
  integration_version : String
  test_timestamp : Nat
  bind_tools_support : Bool
  streaming_support : Bool
  structured_output_support : Bool
  async_support : Bool
  errors : List String := []
  warnings : List String := []
  performance_metrics : List (String × ℚ) := []
  compatibility_score : ℚ := 0
deriving DecidableEq

/-- Record construction in `BaseIntegrationTester.__init__` (lines 33-41):
all four capability flags start `false`, lists empty, score 0. -/
def initResult (name version : String) (ts : Nat) : IntegrationTestResult :=
  { integration_name := name
    integration_version := version
    test_timestamp := ts
    bind_tools_support := false
    streaming_support := false
    structured_output_support := false
    async_support := false }

/-- Python `dict` write `d[k] = v`: overwrite in place if the key exists,
otherwise append at the end (insertion order preserved). -/
def dictSet {α : Type} (m : List (String × α)) (k : String) (v : α) :
    List (String × α) :=
  if m.any (fun kv => kv.1 = k) then
    m.map (fun kv => if kv.1 = k then (k, v) else kv)
  else
    m ++ [(k, v)]

/-- `dict` write on the `performance_metrics` mapping. -/
def setMetric (m : List (String × ℚ)) (k : String) (v : ℚ) : List (String × ℚ) :=
  dictSet m k v

/-- Python `d.get(k)` on the metrics dict. -/
def getMetric (m : List (String × ℚ)) (k : String) : Option ℚ :=
  (m.find? (fun kv => kv.1 = k)).map (fun kv => kv.2)

/-- `supported_features`: the sum in `_calculate_compatibility_score`
(lines 127-132) of the four capability flags. -/
def countTrueFlags (r : IntegrationTestResult) : Nat :=
  r.bind_tools_support.toNat + r.streaming_support.toNat +
    r.structured_output_support.toNat + r.async_support.toNat

/-- `feature_score = (supported_features / total_features) * 0.7`
(line 135, `total_features = 4`). -/
def feature_score (r : IntegrationTestResult) : ℚ :=
  ((countTrueFlags r : ℚ) / 4) * (7 / 10)

/-- `error_penalty = min(len(errors) * 0.1, 0.3)` (line 138). -/
def error_penalty (r : IntegrationTestResult) : ℚ :=
  min ((r.errors.length : ℚ) * (1 / 10)) (3 / 10)

/-- `warning_penalty = min(len(warnings) * 0.05, 0.2)` (line 141). -/
def warning_penalty (r : IntegrationTestResult) : ℚ :=
  min ((r.warnings.length : ℚ) * (1 / 20)) (1 / 5)

/-- `_calculate_compatibility_score` (lines 124-144): writes
`max(0.0, feature_score - error_penalty - warning_penalty)` into the
record's `compatibility_score` field. -/
def calculate_compatibility_score (r : IntegrationTestResult) : IntegrationTestResult :=
  { r with compatibility_score := max 0 (feature_score r - error_penalty r - warning_penalty r) }

/-- Modelled from the spec (section 4.6): the scoring formula exactly as the
spec writes it, as a function of the flag count and the error/warning
counts, for comparison with `calculate_compatibility_score`. -/
def specScore (flags errs warns : Nat) : ℚ :=
  max 0 ((flags : ℚ) / 4 * (7 / 10)
    - min ((errs : ℚ) * (1 / 10)) (3 / 10)
    - min ((warns : ℚ) * (1 / 20)) (1 / 5))

/-- A concrete record with exactly two capability flags true, five errors
and zero warnings, used to evaluate the scoring function. -/
def twoFlagFiveErrRecord : IntegrationTestResult :=
  { initResult "X" "unknown" 0 with
      bind_tools_support := true
      streaming_support := true
      errors := ["e1", "e2", "e3", "e4", "e5"] }

/-!
## The base harness pipeline (`run_all_tests`, lines 44-66)

A phase mutates the shared `self.results` record and either returns
normally or lets an exception escape.  Python in-place mutation keeps
every write made before a raise, so a phase is modelled as a function
returning the updated record together with `Option String`: `some e`
means the exception `e` escaped the phase.
-/

/-- One pipeline phase: updated record plus the escaping exception, if any. -/
abbrev Phase := IntegrationTestResult → IntegrationTestResult × Option String

/-- Sequencing inside the `try` block: once an exception has escaped,
the remaining phases are skipped (control jumps to `except`). -/
def runPhase (p : Phase) (s : IntegrationTestResult × Option String) :
    IntegrationTestResult × Option String :=
  match s with
  | (r, some e) => (r, some e)
  | (r, none) => p r

/-- State after the four probing phases of the `try` block
(instantiation, required methods, method functionality, error handling),
before score computation. -/
def runPhases (p1 p2 p3 p4 : Phase) (r : IntegrationTestResult) :
    IntegrationTestResult × Option String :=
  runPhase p4 (runPhase p3 (runPhase p2 (p1 r)))

/-- `run_all_tests` (lines 44-66): try the four phases then compute the
score; any exception escaping them is caught once at the top level and
appended to `errors` as `"Test execution failed: <cause>"`; the record
is returned in every case. -/
def run_all_tests (p1 p2 p3 p4 : Phase) (r : IntegrationTestResult) :
    IntegrationTestResult :=
  match runPhases p1 p2 p3 p4 r with
  | (r', none) => calculate_compatibility_score r'
  | (r', some e) => { r' with errors := r'.errors ++ ["Test execution failed: " ++ e] }

/-!
## Individual phases of the base harness
-/

/-- A component class, as seen through Python reflection: which attribute
names its type exposes, and whether the attribute found is callable. -/
structure PyClass where
  hasAttr : String → Bool
  attrCallable : String → Bool

/-- `_test_instantiation` (lines 68-77): `ctor` is the deterministic
outcome of `integration_class(**config)`; a raise appends
`"Instantiation failed: <cause>"`. -/
def test_instantiation {α : Type} (ctor : Except String α)
    (r : IntegrationTestResult) : IntegrationTestResult × Bool :=
  match ctor with
  | .ok _ => (r, true)
  | .error e => ({ r with errors := r.errors ++ ["Instantiation failed: " ++ e] }, false)

/-- One iteration of the `_test_required_methods` loop (lines 83-94):
record presence in the mapping, then append the matching error when the
method is missing or not callable. -/
def test_required_methods_step (cls : PyClass)
    (acc : IntegrationTestResult × List (String × Bool)) (name : String) :
    IntegrationTestResult × List (String × Bool) :=
  if cls.hasAttr name then
    let m := dictSet acc.2 name true
    if cls.attrCallable name then (acc.1, m)
    else ({ acc.1 with errors := acc.1.errors ++ ["Method " ++ name ++ " is not callable"] },
          dictSet m name false)
  else
    ({ acc.1 with errors := acc.1.errors ++ ["Missing required method: " ++ name] },
     dictSet acc.2 name false)

/-- `_test_required_methods` (lines 79-96): for each required name, check
presence on the class then callability, accumulating the errors and the
name-to-presence mapping. -/
def test_required_methods (required : List String) (cls : PyClass)
    (r : IntegrationTestResult) : IntegrationTestResult × List (String × Bool) :=
  required.foldl (test_required_methods_step cls) (r, [])

/-- The errors the presence check contributes for a given list of method
names: one `"Missing required method: <name>"` per absent name, one
`"Method <name> is not callable"` per present-but-not-callable name. -/
def requiredMethodErrors (cls : PyClass) : List String → List String
  | [] => []
  | name :: rest =>
    (if cls.hasAttr name then
      (if cls.attrCallable name then []
       else ["Method " ++ name ++ " is not callable"])
     else ["Missing required method: " ++ name]) ++ requiredMethodErrors cls rest

/-- `_test_error_handling` (lines 103-117): re-construct the component and
run the strategy's scenario probes; the scenario probes themselves never
touch the record, so they are a pure mapping; a raise during
construction appends a warning. -/
def test_error_handling {α : Type} (ctor : Except String α)
    (scenarios : α → List (String × Bool)) (r : IntegrationTestResult) :
    IntegrationTestResult × List (String × Bool) :=
  match ctor with
  | .ok inst => (r, scenarios inst)
  | .error e => ({ r with warnings := r.warnings ++ ["Error handling test failed: " ++ e] }, [])

/-!
## LLM strategy (`llm_tester.py`)
-/

/-- `LLMIntegrationTester.REQUIRED_METHODS` (lines 11-14). -/
def LLM_REQUIRED_METHODS : List String :=
  ["invoke", "ainvoke", "stream", "astream", "bind_tools", "with_structured_output"]

/-- `LLMIntegrationTester.OPTIONAL_METHODS` (lines 16-18). -/
def LLM_OPTIONAL_METHODS : List String :=
  ["batch", "abatch", "bind", "with_config"]

/-- A Python call result: its truthiness and the length of `str(result)`. -/
structure PyResp where
  truthy : Bool
  strLen : Nat
deriving DecidableEq

/-- One step of a (possibly unbounded) chunk stream: yield a chunk (taking
`cost` wall-clock time to arrive), end the iteration, or raise. -/
inductive StreamStep where
  | yield (chunk : String) (cost : ℚ)
  | stop
  | raise (msg : String)
deriving DecidableEq

/-- Outcome of `instance.bind_tools([...])`: the bound model's truthiness,
and the result of invoking it (truthiness of the response, or a raise). -/
structure BindOutcome where
  truthy : Bool
  invokeRes : Except String Bool

/-- Outcome of `instance.with_structured_output(TestResponse)`: the bound
model's truthiness and the result of invoking it (`true` iff the response
is a `TestResponse`, or a raise). -/
structure StructOutcome where
  truthy : Bool
  invokeRes : Except String Bool

/-- Deterministic behaviour of an instantiated LLM-like component, as
observed by the probes of `llm_tester.py`. -/
structure LLMInstance where
  hasAttr : String → Bool
  invokeRes : String → Except String PyResp
  invokeElapsed : ℚ
  ainvokeRes : String → Except String PyResp
  ainvokeElapsed : ℚ
  stream : String → Nat → StreamStep
  bindToolsRes : Except String BindOutcome
  structuredRes : Except String StructOutcome

/-- The consumption loop of `_test_streaming_support` (lines 100-103):
pull chunks starting at index `i` with `fuel` pulls remaining; returns
the consumed chunks, the elapsed time across that consumption, and the
exception if one was raised mid-iteration (in which case the local
chunk list is discarded by the caller).  The source loop appends each
chunk and breaks once `len(chunks) > 10`, i.e. it pulls at most 11
chunks, so it is entered with `fuel = 11`. -/
def consumeChunks (s : Nat → StreamStep) : Nat → Nat → List String × ℚ × Option String
  | _, 0 => ([], 0, none)
  | i, fuel + 1 =>
    match s i with
    | .stop => ([], 0, none)
    | .raise e => ([], 0, some e)
    | .yield c cost =>
      let rest := consumeChunks s (i + 1) fuel
      (c :: rest.1, cost + rest.2.1, rest.2.2)

/-- `_test_invoke` (lines 47-64). -/
def test_invoke (inst : LLMInstance) (r : IntegrationTestResult) :
    IntegrationTestResult × Bool :=
  match inst.invokeRes "Hello, this is a test message." with
  | .error e => ({ r with errors := r.errors ++ ["Invoke test failed: " ++ e] }, false)
  | .ok resp =>
    let r := { r with performance_metrics := setMetric r.performance_metrics "invoke_latency" inst.invokeElapsed }
    if resp.truthy ∧ 0 < resp.strLen then (r, true)
    else ({ r with warnings := r.warnings ++ ["Invoke returned empty or invalid response"] }, false)

/-- `_test_ainvoke` (lines 66-88): note `async_support` is set right after
the awaited call succeeds, before the response is inspected. -/
def test_ainvoke (inst : LLMInstance) (r : IntegrationTestResult) :
    IntegrationTestResult × Bool :=
  if inst.hasAttr "ainvoke" then
    match inst.ainvokeRes "Hello, this is an async test message." with
    | .error e => ({ r with errors := r.errors ++ ["Async invoke test failed: " ++ e] }, false)
    | .ok resp =>
      let r := { r with performance_metrics := setMetric r.performance_metrics "ainvoke_latency" inst.ainvokeElapsed }
      let r := { r with async_support := true }
      if resp.truthy ∧ 0 < resp.strLen then (r, true)
      else ({ r with warnings := r.warnings ++ ["Async invoke returned empty or invalid response"] }, false)
  else ({ r with warnings := r.warnings ++ ["ainvoke method not available"] }, false)

/-- `_test_streaming_support` (lines 90-118): consume the stream through
the capped loop; at least one chunk sets `streaming_support` and records
`streaming_latency` and `chunks_received`; zero chunks is a warning; a
raise anywhere in the `try` is an error. -/
def test_streaming_support (inst : LLMInstance) (r : IntegrationTestResult) :
    IntegrationTestResult × Bool :=
  if inst.hasAttr "stream" then
    match consumeChunks (inst.stream "Tell me a short story.") 0 11 with
    | (chunks, elapsed, none) =>
      if chunks.isEmpty then
        ({ r with warnings := r.warnings ++ ["Streaming produced no chunks"] }, false)
      else
        let m := setMetric (setMetric r.performance_metrics "streaming_latency" elapsed) "chunks_received" (chunks.length : ℚ)
        ({ r with streaming_support := true, performance_metrics := m }, true)
    | (_, _, some e) => ({ r with errors := r.errors ++ ["Streaming test failed: " ++ e] }, false)
  else
    ({ r with warnings := r.warnings ++ ["stream method not available"] }, false)

/-- `_test_bind_tools_support` (lines 120-152): a missing `bind_tools` is
an error (it is in the required set); a successful truthy bind sets
`bind_tools_support`; a raise from the follow-up invocation is only a
warning and the probe still reports success. -/
def test_bind_tools_support (inst : LLMInstance) (r : IntegrationTestResult) :
    IntegrationTestResult × Bool :=
  if inst.hasAttr "bind_tools" then
    match inst.bindToolsRes with
    | .error e => ({ r with errors := r.errors ++ ["bind_tools test failed: " ++ e] }, false)
    | .ok b =>
      if b.truthy then
        let r := { r with bind_tools_support := true }
        match b.invokeRes with
        | .ok t => if t then (r, true) else (r, false)
        | .error te =>
          ({ r with warnings := r.warnings ++ ["Tool binding works but execution failed: " ++ te] }, true)
      else (r, false)
  else ({ r with errors := r.errors ++ ["bind_tools method not available"] }, false)

/-- `_test_structured_output` (lines 154-186): missing method is only a
warning; a successful truthy bind sets `structured_output_support`;
follow-up invocation failure is a warning with success reported. -/
def test_structured_output (inst : LLMInstance) (r : IntegrationTestResult) :
    IntegrationTestResult × Bool :=
  if inst.hasAttr "with_structured_output" then
    match inst.structuredRes with
    | .error e => ({ r with errors := r.errors ++ ["Structured output test failed: " ++ e] }, false)
    | .ok s =>
      if s.truthy then
        let r := { r with structured_output_support := true }
        match s.invokeRes with
        | .ok isTR => if isTR then (r, true) else (r, false)
        | .error se =>
          ({ r with warnings := r.warnings ++ ["Structured output binding works but execution failed: " ++ se] }, true)
      else (r, false)
  else ({ r with warnings := r.warnings ++ ["with_structured_output method not available"] }, false)

/-- `LLMIntegrationTester._test_method_functionality` (lines 20-45): build
an instance, then run the five probes in order; a raise from construction
appends `"Method functionality testing failed: <cause>"`. -/
def llm_test_method_functionality (ctor : Except String LLMInstance)
    (r : IntegrationTestResult) : IntegrationTestResult × List (String × Bool) :=
  match ctor with
  | .error e => ({ r with errors := r.errors ++ ["Method functionality testing failed: " ++ e] }, [])
  | .ok inst =>
    let s1 := test_invoke inst r
    let s2 := test_ainvoke inst s1.1
    let s3 := test_streaming_support inst s2.1
    let s4 := test_bind_tools_support inst s3.1
    let s5 := test_structured_output inst s4.1
    (s5.1, [("invoke", s1.2), ("ainvoke", s2.2), ("streaming", s3.2),
            ("bind_tools", s4.2), ("structured_output", s5.2)])

/-!
## Chat strategy (`chat_model_tester.py`)

`ChatModelTester` subclasses `BaseIntegrationTester` directly, so the
`super()._test_method_functionality()` call on line 35 resolves to the
abstract base method, whose body is `pass` and hence returns `None`.
-/

/-- `ChatModelTester.REQUIRED_METHODS` (lines 8-11). -/
def CHAT_REQUIRED_METHODS : List String :=
  ["invoke", "ainvoke", "stream", "astream", "bind_tools", "with_structured_output"]

/-- `ChatModelTester.OPTIONAL_METHODS` (lines 13-16). -/
def CHAT_OPTIONAL_METHODS : List String :=
  ["batch", "abatch", "bind", "with_config", "get_num_tokens", "get_token_ids"]

/-- A LangChain chat message (`HumanMessage` / `SystemMessage`). -/
inductive Message where
  | human (content : String)
  | system (content : String)
deriving DecidableEq

/-- A chat response: its truthiness and whether it has a `content`
attribute. -/
structure ChatResp where
  truthy : Bool
  hasContent : Bool
deriving DecidableEq

/-- Deterministic behaviour of an instantiated chat component: the
outcome of `instance.invoke(messages)`. -/
structure ChatInstance where
  invokeMsgs : List Message → Except String ChatResp

/-- `_test_message_handling` (lines 43-57): a raise is an error; a
response without `content` is a warning. -/
def test_message_handling (inst : ChatInstance) (r : IntegrationTestResult) :
    IntegrationTestResult × Bool :=
  match inst.invokeMsgs [.human "Hello, how are you?"] with
  | .error e => ({ r with errors := r.errors ++ ["Message handling test failed: " ++ e] }, false)
  | .ok resp =>
    if resp.truthy ∧ resp.hasContent then (r, true)
    else ({ r with warnings := r.warnings ++ ["Message handling returned invalid response format"] }, false)

/-- `_test_system_message_support` (lines 59-76): note a raise here is
appended to `warnings`, not `errors`. -/
def test_system_message_support (inst : ChatInstance) (r : IntegrationTestResult) :
    IntegrationTestResult × Bool :=
  match inst.invokeMsgs [.system "You are a helpful assistant.", .human "What is 2+2?"] with
  | .error e => ({ r with warnings := r.warnings ++ ["System message support test failed: " ++ e] }, false)
  | .ok resp =>
    if resp.truthy then (r, true)
    else ({ r with warnings := r.warnings ++ ["System message support test returned no response"] }, false)

/-- `_test_conversation_handling` (lines 78-95): two-turn exchange; a
raise is a warning. -/
def test_conversation_handling (inst : ChatInstance) (r : IntegrationTestResult) :
    IntegrationTestResult × Bool :=
  match inst.invokeMsgs [.human "My name is Alice.", .human "What is my name?"] with
  | .error e => ({ r with warnings := r.warnings ++ ["Conversation handling test failed: " ++ e] }, false)
  | .ok resp =>
    if resp.truthy then (r, true)
    else ({ r with warnings := r.warnings ++ ["Conversation handling test returned no response"] }, false)

/-- `BaseIntegrationTester._test_method_functionality` (base_tester.py
lines 98-101) is abstract with body `pass`; invoking it through
`super()` returns Python `None`, modelled as `none`. -/
def base_test_method_functionality_result : Option (List (String × Bool)) := none

/-- Python `dict.update(arg)`: merging a mapping succeeds; `update(None)`
raises `TypeError("'NoneType' object is not iterable")`. -/
def dictUpdate (d : List (String × Bool)) :
    Option (List (String × Bool)) → Except String (List (String × Bool))
  | some entries => .ok (entries.foldl (fun acc kv => dictSet acc kv.1 kv.2) d)
  | none => .error "\x27NoneType\x27 object is not iterable"

/-- `ChatModelTester._test_method_functionality` (lines 18-41): run the
three message-oriented probes, then attempt
`functionality_results.update(await super()._test_method_functionality())`;
the `super()` call yields `None`, so the update raises inside the `try`
and the exception is recorded as a
`"Chat model functionality testing failed: <cause>"` error, with the
dictionary built so far returned. -/
def chat_test_method_functionality (ctor : Except String ChatInstance)
    (r : IntegrationTestResult) : IntegrationTestResult × List (String × Bool) :=
  match ctor with
  | .error e => ({ r with errors := r.errors ++ ["Chat model functionality testing failed: " ++ e] }, [])
  | .ok inst =>
    let s1 := test_message_handling inst r
    let s2 := test_system_message_support inst s1.1
    let s3 := test_conversation_handling inst s2.1
    let fr := [("message_handling", s1.2), ("system_message", s2.2), ("conversation", s3.2)]
    match dictUpdate fr base_test_method_functionality_result with
    | .ok fr2 => (s3.1, fr2)
    | .error e =>
      ({ s3.1 with errors := s3.1.errors ++ ["Chat model functionality testing failed: " ++ e] }, fr)

/-!
## Embeddings strategy (`embeddings_tester.py`)
-/

/-- `EmbeddingsTester.REQUIRED_METHODS` (lines 8-10). -/
def EMB_REQUIRED_METHODS : List String := ["embed_documents", "embed_query"]

/-- `EmbeddingsTester.OPTIONAL_METHODS` (lines 12-14). -/
def EMB_OPTIONAL_METHODS : List String := ["aembed_documents", "aembed_query"]

/-- A value returned by an embedding call: either an actual Python list
of floats, or some non-list value with the given truthiness. -/
inductive PyEmb where
  | list (v : List ℚ)
  | nonList (truthy : Bool)
deriving DecidableEq

/-- The recurring guard `embedding and isinstance(embedding, list) and
len(embedding) > 0` (an empty list is falsy, so the three conjuncts
collapse to: a non-empty list). -/
def pyEmbGood : PyEmb → Bool
  | .list l => !l.isEmpty
  | .nonList _ => false

/-- Deterministic behaviour of an instantiated embeddings component. -/
structure EmbInstance where
  hasAttr : String → Bool
  embedQuery : String → Except String PyEmb
  embedDocuments : List String → Except String (List PyEmb)
  aembedQuery : String → Except String PyEmb
  aembedDocuments : List String → Except String (List PyEmb)

/-- `_test_embed_documents` (lines 40-65). -/
def test_embed_documents (inst : EmbInstance) (r : IntegrationTestResult) :
    IntegrationTestResult × Bool :=
  let docs := ["This is a test document.", "Another test document for embedding.",
               "A third document to test batch embedding."]
  match inst.embedDocuments docs with
  | .error e => ({ r with errors := r.errors ++ ["embed_documents test failed: " ++ e] }, false)
  | .ok embs =>
    if ¬ embs.isEmpty ∧ embs.length = docs.length then
      if embs.all (fun emb => match emb with | .list l => !l.isEmpty | .nonList _ => false) then
        ({ r with performance_metrics := setMetric r.performance_metrics "documents_embedded" (docs.length : ℚ) }, true)
      else ({ r with errors := r.errors ++ ["embed_documents returned invalid embedding format"] }, false)
    else ({ r with errors := r.errors ++ ["embed_documents returned wrong number of embeddings"] }, false)

/-- `_test_embed_query` (lines 67-83). -/
def test_embed_query (inst : EmbInstance) (r : IntegrationTestResult) :
    IntegrationTestResult × Bool :=
  match inst.embedQuery "What is the meaning of life?" with
  | .error e => ({ r with errors := r.errors ++ ["embed_query test failed: " ++ e] }, false)
  | .ok v =>
    match v with
    | .list l =>
      if !l.isEmpty then
        ({ r with performance_metrics := setMetric r.performance_metrics "embedding_dimension" (l.length : ℚ) }, true)
      else ({ r with errors := r.errors ++ ["embed_query returned invalid embedding"] }, false)
    | .nonList _ => ({ r with errors := r.errors ++ ["embed_query returned invalid embedding"] }, false)

/-- `_test_async_embeddings` (lines 85-109): try `aembed_query` first,
fall through to `aembed_documents`, and append the
`"No async embedding methods available"` warning whenever neither path
returned; a raise anywhere in the `try` is a warning. -/
def test_async_embeddings (inst : EmbInstance) (r : IntegrationTestResult) :
    IntegrationTestResult × Bool :=
  let fallthru := fun (r : IntegrationTestResult) =>
    ({ r with warnings := r.warnings ++ ["No async embedding methods available"] }, false)
  let step2 := fun (r : IntegrationTestResult) =>
    if inst.hasAttr "aembed_documents" then
      match inst.aembedDocuments ["Async document embedding test"] with
      | .error e => ({ r with warnings := r.warnings ++ ["Async embeddings test failed: " ++ e] }, false)
      | .ok embs =>
        if ¬ embs.isEmpty ∧ embs.length = 1 then ({ r with async_support := true }, true)
        else fallthru r
    else fallthru r
  if inst.hasAttr "aembed_query" then
    match inst.aembedQuery "Async embedding test query" with
    | .error e => ({ r with warnings := r.warnings ++ ["Async embeddings test failed: " ++ e] }, false)
    | .ok v => if pyEmbGood v then ({ r with async_support := true }, true) else step2 r
  else step2 r

/-- The three queries of `_test_dimension_consistency` (lines 115-119). -/
def dimensionTestQueries : List String :=
  ["Short query",
   "This is a much longer query with more words to test dimension consistency",
   "Medium length query for testing"]

/-- The collection loop of `_test_dimension_consistency` (lines 121-125):
embed each query in order, keeping `len(embedding)` whenever the result
is a truthy list; a raise aborts the loop and propagates. -/
def collectDims (inst : EmbInstance) : List String → List Nat → Except String (List Nat)
  | [], acc => .ok acc
  | q :: qs, acc =>
    match inst.embedQuery q with
    | .error e => .error e
    | .ok (.list l) => collectDims inst qs (if l.isEmpty then acc else acc ++ [l.length])
    | .ok (.nonList _) => collectDims inst qs acc

/-- Python `repr` of a list of ints, as interpolated by
`f"Inconsistent embedding dimensions: {dimensions}"`. -/
def pyListRepr (ds : List Nat) : String :=
  "[" ++ String.intercalate ", " (ds.map toString) ++ "]"

/-- `_test_dimension_consistency` (lines 111-136): success iff at least
one dimension was collected and all collected dimensions coincide
(`len(set(dimensions)) == 1`); otherwise append an error carrying the
observed dimension list itself. -/
def test_dimension_consistency (inst : EmbInstance) (r : IntegrationTestResult) :
    IntegrationTestResult × Bool :=
  match collectDims inst dimensionTestQueries [] with
  | .error e => ({ r with warnings := r.warnings ++ ["Dimension consistency test failed: " ++ e] }, false)
  | .ok dims =>
    if ¬ dims.isEmpty ∧ dims.dedup.length = 1 then (r, true)
    else ({ r with errors := r.errors ++ ["Inconsistent embedding dimensions: " ++ pyListRepr dims] }, false)

/-- `EmbeddingsTester._test_method_functionality` (lines 16-38). -/
def emb_test_method_functionality (ctor : Except String EmbInstance)
    (r : IntegrationTestResult) : IntegrationTestResult × List (String × Bool) :=
  match ctor with
  | .error e => ({ r with errors := r.errors ++ ["Embeddings functionality testing failed: " ++ e] }, [])
  | .ok inst =>
    let s1 := test_embed_documents inst r
    let s2 := test_embed_query inst s1.1
    let s3 := test_async_embeddings inst s2.1
    let s4 := test_dimension_consistency inst s3.1
    (s4.1, [("embed_documents", s1.2), ("embed_query", s2.2),
            ("async_embeddings", s3.2), ("dimension_consistency", s4.2)])

/-!
## The concrete LLM pipeline, and auxiliary notions used by theorems

The concrete probe operations never let an exception escape (each is
wrapped in its own `try`/`except`), so the phases of a concrete
strategy's `run_all_tests` are the operations with `none` as the
escaping-exception component.
-/

/-- The four pipeline phases of `run_all_tests` when the strategy is
`LLMIntegrationTester` with class `cls`, constructor outcome `ctor` and
error-scenario probes `scen`. -/
def llm_run_all_tests (cls : PyClass) (ctor : Except String LLMInstance)
    (scen : LLMInstance → List (String × Bool)) (r : IntegrationTestResult) :
    IntegrationTestResult :=
  run_all_tests
    (fun s => ((test_instantiation ctor s).1, none))
    (fun s => ((test_required_methods LLM_REQUIRED_METHODS cls s).1, none))
    (fun s => ((llm_test_method_functionality ctor s).1, none))
    (fun s => ((test_error_handling ctor scen s).1, none))
    r

/-- The state-independent effect of one deterministic phase on the
record: fixed appended errors and warnings, fixed flag contributions,
a fixed sequence of metric writes, and a fixed escaping exception. -/
structure PhaseEffect where
  errs : List String
  warns : List String
  fb : Bool
  fs : Bool
  fso : Bool
  fa : Bool
  kvs : List (String × ℚ)
  exn : Option String

/-- Apply a state-independent effect to a record. -/
def applyEffect (E : PhaseEffect) (r : IntegrationTestResult) :
    IntegrationTestResult × Option String :=
  ({ r with
      errors := r.errors ++ E.errs
      warnings := r.warnings ++ E.warns
      bind_tools_support := r.bind_tools_support || E.fb
      streaming_support := r.streaming_support || E.fs
      structured_output_support := r.structured_output_support || E.fso
      async_support := r.async_support || E.fa
      performance_metrics := E.kvs.foldl (fun m kv => setMetric m kv.1 kv.2) r.performance_metrics },
   E.exn)

/-- A record-transforming operation whose effect does not depend on the
accumulated record state (the behaviour of every probe against a
deterministic component). -/
def OpUniform (f : IntegrationTestResult → IntegrationTestResult) : Prop :=
  ∃ E : PhaseEffect, ∀ r, f r = (applyEffect E r).1

/-- A pipeline phase whose effect (including the escaping exception) does
not depend on the accumulated record state. -/
def PhaseUniform (p : Phase) : Prop :=
  ∃ E : PhaseEffect, ∀ r, p r = applyEffect E r

/-- Record evolution discipline: capability flags only ever go from
`false` to `true`, and `errors`/`warnings` are only ever appended to. -/
def RecordMono (a b : IntegrationTestResult) : Prop :=
  (a.bind_tools_support = true → b.bind_tools_support = true) ∧
  (a.streaming_support = true → b.streaming_support = true) ∧
  (a.structured_output_support = true → b.structured_output_support = true) ∧
  (a.async_support = true → b.async_support = true) ∧
  (∃ es, b.errors = a.errors ++ es) ∧
  (∃ ws, b.warnings = a.warnings ++ ws)

/-- Sequential composition of two state-independent phase effects: if the
first escapes, the second never runs. -/
def composeEffect (E1 E2 : PhaseEffect) : PhaseEffect :=
  match E1.exn with
  | some _ => E1
  | none =>
    { errs := E1.errs ++ E2.errs
      warns := E1.warns ++ E2.warns
      fb := E1.fb || E2.fb
      fs := E1.fs || E2.fs
      fso := E1.fso || E2.fso
      fa := E1.fa || E2.fa
      kvs := E1.kvs ++ E2.kvs
      exn := E2.exn }

/-- Sequential composition of the record-updating parts of two effects
(the escaping exception plays no role for plain operations). -/
def opComposeEffect (E1 E2 : PhaseEffect) : PhaseEffect :=
  { errs := E1.errs ++ E2.errs
    warns := E1.warns ++ E2.warns
    fb := E1.fb || E2.fb
    fs := E1.fs || E2.fs
    fso := E1.fso || E2.fso
    fa := E1.fa || E2.fa
    kvs := E1.kvs ++ E2.kvs
    exn := E2.exn }

/-- A component class exposing no attributes at all (a component with no
methods). -/
def emptyClass : PyClass := ⟨fun _ => false, fun _ => false⟩

/-- The `run_all_tests` pipeline of the LLM strategy against a component
whose constructor always raises `boom` and whose class exposes no
attributes. -/
def badLLMRun (r : IntegrationTestResult) : IntegrationTestResult :=
  llm_run_all_tests emptyClass (.error "boom") (fun _ => []) r

/-- A well-behaved LLM component whose stream yields 1000 chunks, each
arriving after one unit of wall-clock time. -/
def thousandChunkInst : LLMInstance :=
  { hasAttr := fun _ => true
    invokeRes := fun _ => .ok ⟨true, 5⟩
    invokeElapsed := 0
    ainvokeRes := fun _ => .ok ⟨true, 5⟩
    ainvokeElapsed := 0
    stream := fun _ i => if i < 1000 then .yield "chunk" 1 else .stop
    bindToolsRes := .ok ⟨true, .ok true⟩
    structuredRes := .ok ⟨true, .ok true⟩ }

/-- A well-behaved chat component: every `invoke(messages)` call returns
a truthy response carrying a `content` attribute. -/
def goodChatInst : ChatInstance := ⟨fun _ => .ok ⟨true, true⟩⟩

/-- An embeddings component returning vectors of mismatched dimensions
(1, 2 and 1) for the three consistency queries. -/
def mismatchedEmbInst : EmbInstance :=
  { hasAttr := fun _ => true
    embedQuery := fun q =>
      if q = "This is a much longer query with more words to test dimension consistency" then
        .ok (.list [0, 0])
      else .ok (.list [0])
    embedDocuments := fun docs => .ok (docs.map (fun _ => .list [0]))
    aembedQuery := fun _ => .ok (.list [0])
    aembedDocuments := fun docs => .ok (docs.map (fun _ => .list [0])) }

/-- A component class exposing only a non-callable `invoke` attribute. -/
def invokeOnlyClass : PyClass :=
  ⟨fun name => name = "invoke", fun _ => false⟩

/-!
## Theorems
-/

lemma countTrueFlags_le_four (r : IntegrationTestResult) : countTrueFlags r ≤ 4 := by
  unfold countTrueFlags
  cases r.bind_tools_support <;> cases r.streaming_support <;>
    cases r.structured_output_support <;> cases r.async_support <;> simp

lemma error_penalty_nonneg (r : IntegrationTestResult) : 0 ≤ error_penalty r := by
  unfold error_penalty
  refine le_min (by positivity) (by norm_num)

lemma warning_penalty_nonneg (r : IntegrationTestResult) : 0 ≤ warning_penalty r := by
  unfold warning_penalty
  refine le_min (by positivity) (by norm_num)

lemma feature_score_le (r : IntegrationTestResult) : feature_score r ≤ 7 / 10 := by
  unfold feature_score
  have h : (countTrueFlags r : ℚ) ≤ 4 := by
    exact_mod_cast countTrueFlags_le_four r
  nlinarith

/-- C1: the scoring function is a deterministic pure function of the final
record: for every record the computed `compatibility_score` equals
`max(0, (trueFlags/4)*0.7 - min(errors*0.1, 0.3) - min(warnings*0.05, 0.2))`
(the spec's formula, stated here over exact rationals), and on a record
with two flags true, five errors and no warnings it is exactly
`0.05 = 1/20`. -/
theorem calculate_compatibility_score_matches_spec :
    (∀ r : IntegrationTestResult,
      (calculate_compatibility_score r).compatibility_score =
        specScore (countTrueFlags r) r.errors.length r.warnings.length) ∧
    (calculate_compatibility_score twoFlagFiveErrRecord).compatibility_score = 1 / 20 := by
  constructor
  · intro r
    rfl
  · show max 0 (feature_score twoFlagFiveErrRecord - error_penalty twoFlagFiveErrRecord -
      warning_penalty twoFlagFiveErrRecord) = 1 / 20
    norm_num [feature_score, error_penalty, warning_penalty, countTrueFlags,
      twoFlagFiveErrRecord, initResult, min_def, max_def]

/-- C3: for every record, the computed score lies in `[0, 1]`, never
exceeds `0.7`, and attains `0.7` exactly when all four capability flags
are true with empty `errors` and `warnings`. -/
theorem compatibility_score_bounds :
    ∀ r : IntegrationTestResult,
      0 ≤ (calculate_compatibility_score r).compatibility_score ∧
      (calculate_compatibility_score r).compatibility_score ≤ 1 ∧
      (calculate_compatibility_score r).compatibility_score ≤ 7 / 10 ∧
      ((calculate_compatibility_score r).compatibility_score = 7 / 10 ↔
        (r.bind_tools_support = true ∧ r.streaming_support = true ∧
         r.structured_output_support = true ∧ r.async_support = true ∧
         r.errors = [] ∧ r.warnings = [])) := by
  intro r
  have hep := error_penalty_nonneg r
  have hwp := warning_penalty_nonneg r
  have hfs := feature_score_le r
  have hscore : (calculate_compatibility_score r).compatibility_score =
      max 0 (feature_score r - error_penalty r - warning_penalty r) := rfl
  have hle : (calculate_compatibility_score r).compatibility_score ≤ 7 / 10 := by
    rw [hscore]
    refine max_le (by norm_num) (by linarith)
  refine ⟨by rw [hscore]; exact le_max_left 0 _, by linarith, hle, ?_⟩
  constructor
  · intro h
    rw [hscore] at h
    rcases max_cases (0 : ℚ) (feature_score r - error_penalty r - warning_penalty r) with
      ⟨hm, _⟩ | ⟨hm, _⟩
    · rw [hm] at h; norm_num at h
    · rw [hm] at h
      have hfs70 : feature_score r = 7 / 10 := by linarith
      have hep0 : error_penalty r = 0 := by linarith
      have hwp0 : warning_penalty r = 0 := by linarith
      have herr : r.errors.length = 0 := by
        by_contra hne
        have h1 : 1 ≤ r.errors.length := Nat.one_le_iff_ne_zero.mpr hne
        have h1q : (1 : ℚ) ≤ (r.errors.length : ℚ) := by exact_mod_cast h1
        have : (1 : ℚ) / 10 ≤ error_penalty r := by
          unfold error_penalty
          refine le_min (by linarith) (by norm_num)
        linarith
      have hwarn : r.warnings.length = 0 := by
        by_contra hne
        have h1 : 1 ≤ r.warnings.length := Nat.one_le_iff_ne_zero.mpr hne
        have h1q : (1 : ℚ) ≤ (r.warnings.length : ℚ) := by exact_mod_cast h1
        have : (1 : ℚ) / 20 ≤ warning_penalty r := by
          unfold warning_penalty
          refine le_min (by linarith) (by norm_num)
        linarith
      have hn4 : countTrueFlags r = 4 := by
        unfold feature_score at hfs70
        have : (countTrueFlags r : ℚ) = 4 := by linarith
        exact_mod_cast this
      have hflags : r.bind_tools_support = true ∧ r.streaming_support = true ∧
          r.structured_output_support = true ∧ r.async_support = true := by
        unfold countTrueFlags at hn4
        cases hb : r.bind_tools_support <;> cases hs : r.streaming_support <;>
          cases hso : r.structured_output_support <;> cases ha : r.async_support <;>
          rw [hb, hs, hso, ha] at hn4 <;> simp_all
      exact ⟨hflags.1, hflags.2.1, hflags.2.2.1, hflags.2.2.2,
        List.length_eq_zero.mp herr, List.length_eq_zero.mp hwarn⟩
  · rintro ⟨hb, hs, hso, ha, he, hw⟩
    rw [hscore]
    unfold feature_score error_penalty warning_penalty countTrueFlags
    rw [hb, hs, hso, ha, he, hw]
    norm_num

/-- C2: `run_all_tests` is total — whatever the four phases do (any
component behaviour, including a constructor that always raises, methods
that always raise, or a component with no methods at all), it returns
the record; when no exception escapes the phases the finalized record is
returned, and when one does escape it is caught exactly once at the top
level, appending the single entry `"Test execution failed: <cause>"`. -/
theorem run_all_tests_top_level_catch (p1 p2 p3 p4 : Phase) (r : IntegrationTestResult) :
    ((runPhases p1 p2 p3 p4 r).2 = none →
      run_all_tests p1 p2 p3 p4 r =
        calculate_compatibility_score (runPhases p1 p2 p3 p4 r).1) ∧
    (∀ e, (runPhases p1 p2 p3 p4 r).2 = some e →
      (run_all_tests p1 p2 p3 p4 r).errors =
        (runPhases p1 p2 p3 p4 r).1.errors ++ ["Test execution failed: " ++ e] ∧
      (run_all_tests p1 p2 p3 p4 r).warnings = (runPhases p1 p2 p3 p4 r).1.warnings) := by
  unfold run_all_tests
  rcases h : runPhases p1 p2 p3 p4 r with ⟨r', e?⟩
  cases e? with
  | none => exact ⟨fun _ => rfl, fun e he => by simp at he⟩
  | some e0 =>
    refine ⟨fun hc => by simp at hc, fun e he => ?_⟩
    have : e0 = e := by simpa using he
    subst this
    exact ⟨rfl, rfl⟩

/-- Witness for C2: a pipeline whose instantiation phase lets the
exception `boom` escape still returns a record, with exactly the one
top-level error appended. -/
theorem run_all_tests_top_level_catch_witness :
    (run_all_tests (fun s => (s, some "boom")) (fun s => (s, none)) (fun s => (s, none))
      (fun s => (s, none)) (initResult "Broken" "unknown" 0)).errors =
      ["Test execution failed: boom"] := by
  have h := (run_all_tests_top_level_catch (fun s => (s, some "boom")) (fun s => (s, none))
    (fun s => (s, none)) (fun s => (s, none)) (initResult "Broken" "unknown" 0)).2 "boom" rfl
  simpa [runPhases, runPhase, initResult] using h.1

/-- C10: when an exception escapes the phases (so the score-computation
phase never runs), the returned record's `compatibility_score` is the
construction default `0.0`, whatever the phases populated before the
fault — given that, as in the source, none of the four probing phases
writes `compatibility_score`. -/
theorem score_stays_default_on_abort (p1 p2 p3 p4 : Phase)
    (h1 : ∀ s, ((p1 s).1).compatibility_score = s.compatibility_score)
    (h2 : ∀ s, ((p2 s).1).compatibility_score = s.compatibility_score)
    (h3 : ∀ s, ((p3 s).1).compatibility_score = s.compatibility_score)
    (h4 : ∀ s, ((p4 s).1).compatibility_score = s.compatibility_score)
    (name ver : String) (ts : Nat) (e : String)
    (habort : (runPhases p1 p2 p3 p4 (initResult name ver ts)).2 = some e) :
    (run_all_tests p1 p2 p3 p4 (initResult name ver ts)).compatibility_score = 0 := by
  have hchain : ∀ (p : Phase), (∀ s, ((p s).1).compatibility_score = s.compatibility_score) →
      ∀ x : IntegrationTestResult × Option String,
        ((runPhase p x).1).compatibility_score = (x.1).compatibility_score := by
    intro p hp x
    rcases x with ⟨s, e?⟩
    cases e? with
    | none => exact hp s
    | some _ => rfl
  have hscore : ((runPhases p1 p2 p3 p4 (initResult name ver ts)).1).compatibility_score =
      (initResult name ver ts).compatibility_score := by
    unfold runPhases
    rw [hchain p4 h4, hchain p3 h3, hchain p2 h2]
    exact h1 (initResult name ver ts)
  unfold run_all_tests
  rcases h : runPhases p1 p2 p3 p4 (initResult name ver ts) with ⟨r', e?⟩
  rw [h] at habort hscore
  cases e? with
  | none => simp at habort
  | some e0 => simpa using hscore

/-- Witness for C10: a run whose functionality phase raises after having
set a flag and appended an error still returns score `0.0`. -/
theorem score_stays_default_on_abort_witness :
    (run_all_tests
      (fun s => (s, none))
      (fun s => (s, none))
      (fun s => (({ s with async_support := true, errors := s.errors ++ ["boom"] } :
        IntegrationTestResult), some "boom"))
      (fun s => (s, none))
      (initResult "Broken" "unknown" 0)).compatibility_score = 0 := by
  exact score_stays_default_on_abort _ _ _ _
    (fun s => rfl) (fun s => rfl) (fun s => rfl) (fun s => rfl)
    "Broken" "unknown" 0 "boom" rfl

lemma runPhase_applyEffect (p : Phase) (E2 : PhaseEffect)
    (hp : ∀ r, p r = applyEffect E2 r) (E1 : PhaseEffect) (r : IntegrationTestResult) :
    runPhase p (applyEffect E1 r) = applyEffect (composeEffect E1 E2) r := by
  rcases hx : E1.exn with _ | e
  · have h1 : applyEffect E1 r = ((applyEffect E1 r).1, none) := by
      unfold applyEffect; rw [hx]
    rw [h1]
    show p (applyEffect E1 r).1 = _
    rw [hp]
    unfold applyEffect composeEffect
    rw [hx]
    simp [List.append_assoc, Bool.or_assoc, List.foldl_append]
  · have h1 : applyEffect E1 r = ((applyEffect E1 r).1, some e) := by
      unfold applyEffect; rw [hx]
    have h3 : composeEffect E1 E2 = E1 := by
      unfold composeEffect; rw [hx]
    rw [h3, h1]
    rfl

lemma runPhases_uniform {p1 p2 p3 p4 : Phase}
    (h1 : PhaseUniform p1) (h2 : PhaseUniform p2) (h3 : PhaseUniform p3)
    (h4 : PhaseUniform p4) :
    PhaseUniform (fun r => runPhases p1 p2 p3 p4 r) := by
  rcases h1 with ⟨E1, hE1⟩
  rcases h2 with ⟨E2, hE2⟩
  rcases h3 with ⟨E3, hE3⟩
  rcases h4 with ⟨E4, hE4⟩
  refine ⟨composeEffect (composeEffect (composeEffect E1 E2) E3) E4, fun r => ?_⟩
  show runPhases p1 p2 p3 p4 r = _
  unfold runPhases
  rw [hE1 r, runPhase_applyEffect p2 E2 hE2, runPhase_applyEffect p3 E3 hE3,
    runPhase_applyEffect p4 E4 hE4]

/-- Counterexample to C5: against a deterministic component whose
constructor always raises, running the same strategy instance's pipeline
twice returns records whose `errors` content differs (the second run
appends every first-run entry again to the same list) and whose
timestamps are the construction-time one both times, not independent. -/
theorem run_twice_idempotence_counterexample :
    (badLLMRun (badLLMRun (initResult "Bad" "unknown" 0))).errors ≠
      (badLLMRun (initResult "Bad" "unknown" 0)).errors ∧
    (badLLMRun (badLLMRun (initResult "Bad" "unknown" 0))).test_timestamp =
      (badLLMRun (initResult "Bad" "unknown" 0)).test_timestamp := by
  constructor
  · decide
  · rfl

/-- C5 amended: `run_all_tests` reuses the single record created at
strategy construction, so running it twice on the same strategy instance
against a deterministic component (each phase's effect independent of
accumulated state) returns records with the *same* timestamp (set only
at construction), identical flags, and accumulated rather than equal
lists: the second run's `errors`/`warnings` are the first run's with
every first-run entry appended again. -/
theorem run_twice_accumulates (p1 p2 p3 p4 : Phase)
    (h1 : PhaseUniform p1) (h2 : PhaseUniform p2) (h3 : PhaseUniform p3)
    (h4 : PhaseUniform p4) (name ver : String) (ts : Nat) :
    (run_all_tests p1 p2 p3 p4 (run_all_tests p1 p2 p3 p4 (initResult name ver ts))).test_timestamp =
      (run_all_tests p1 p2 p3 p4 (initResult name ver ts)).test_timestamp ∧
    (run_all_tests p1 p2 p3 p4 (run_all_tests p1 p2 p3 p4 (initResult name ver ts))).bind_tools_support =
      (run_all_tests p1 p2 p3 p4 (initResult name ver ts)).bind_tools_support ∧
    (run_all_tests p1 p2 p3 p4 (run_all_tests p1 p2 p3 p4 (initResult name ver ts))).streaming_support =
      (run_all_tests p1 p2 p3 p4 (initResult name ver ts)).streaming_support ∧
    (run_all_tests p1 p2 p3 p4 (run_all_tests p1 p2 p3 p4 (initResult name ver ts))).structured_output_support =
      (run_all_tests p1 p2 p3 p4 (initResult name ver ts)).structured_output_support ∧
    (run_all_tests p1 p2 p3 p4 (run_all_tests p1 p2 p3 p4 (initResult name ver ts))).async_support =
      (run_all_tests p1 p2 p3 p4 (initResult name ver ts)).async_support ∧
    (run_all_tests p1 p2 p3 p4 (run_all_tests p1 p2 p3 p4 (initResult name ver ts))).errors =
      (run_all_tests p1 p2 p3 p4 (initResult name ver ts)).errors ++
        (run_all_tests p1 p2 p3 p4 (initResult name ver ts)).errors ∧
    (run_all_tests p1 p2 p3 p4 (run_all_tests p1 p2 p3 p4 (initResult name ver ts))).warnings =
      (run_all_tests p1 p2 p3 p4 (initResult name ver ts)).warnings ++
        (run_all_tests p1 p2 p3 p4 (initResult name ver ts)).warnings := by
  rcases runPhases_uniform h1 h2 h3 h4 with ⟨E, hE⟩
  simp only at hE
  rcases hx : E.exn with _ | e
  · have hrun : ∀ r, run_all_tests p1 p2 p3 p4 r =
        calculate_compatibility_score (applyEffect E r).1 := by
      intro r
      unfold run_all_tests
      rw [hE r]
      unfold applyEffect
      rw [hx]
    have hfields : ∀ r, (run_all_tests p1 p2 p3 p4 r).test_timestamp = r.test_timestamp ∧
        (run_all_tests p1 p2 p3 p4 r).bind_tools_support = (r.bind_tools_support || E.fb) ∧
        (run_all_tests p1 p2 p3 p4 r).streaming_support = (r.streaming_support || E.fs) ∧
        (run_all_tests p1 p2 p3 p4 r).structured_output_support = (r.structured_output_support || E.fso) ∧
        (run_all_tests p1 p2 p3 p4 r).async_support = (r.async_support || E.fa) ∧
        (run_all_tests p1 p2 p3 p4 r).errors = r.errors ++ E.errs ∧
        (run_all_tests p1 p2 p3 p4 r).warnings = r.warnings ++ E.warns := by
      intro r
      rw [hrun r]
      unfold calculate_compatibility_score applyEffect
      exact ⟨rfl, rfl, rfl, rfl, rfl, rfl, rfl⟩
    obtain ⟨t1, b1, s1, so1, a1, e1, w1⟩ := hfields (initResult name ver ts)
    obtain ⟨t2, b2, s2, so2, a2, e2, w2⟩ := hfields (run_all_tests p1 p2 p3 p4 (initResult name ver ts))
    refine ⟨by rw [t2, t1], ?_, ?_, ?_, ?_, ?_, ?_⟩
    · rw [b2, b1]; simp [initResult]
    · rw [s2, s1]; simp [initResult]
    · rw [so2, so1]; simp [initResult]
    · rw [a2, a1]; simp [initResult]
    · rw [e2, e1]; simp [initResult]
    · rw [w2, w1]; simp [initResult]
  · have hrun : ∀ r, run_all_tests p1 p2 p3 p4 r =
        { (applyEffect E r).1 with errors := (applyEffect E r).1.errors ++ ["Test execution failed: " ++ e] } := by
      intro r
      unfold run_all_tests
      rw [hE r]
      unfold applyEffect
      rw [hx]
    have hfields : ∀ r, (run_all_tests p1 p2 p3 p4 r).test_timestamp = r.test_timestamp ∧
        (run_all_tests p1 p2 p3 p4 r).bind_tools_support = (r.bind_tools_support || E.fb) ∧
        (run_all_tests p1 p2 p3 p4 r).streaming_support = (r.streaming_support || E.fs) ∧
        (run_all_tests p1 p2 p3 p4 r).structured_output_support = (r.structured_output_support || E.fso) ∧
        (run_all_tests p1 p2 p3 p4 r).async_support = (r.async_support || E.fa) ∧
        (run_all_tests p1 p2 p3 p4 r).errors = r.errors ++ (E.errs ++ ["Test execution failed: " ++ e]) ∧
        (run_all_tests p1 p2 p3 p4 r).warnings = r.warnings ++ E.warns := by
      intro r
      rw [hrun r]
      unfold applyEffect
      refine ⟨rfl, rfl, rfl, rfl, rfl, ?_, rfl⟩
      show r.errors ++ E.errs ++ ["Test execution failed: " ++ e] = _
      simp [List.append_assoc]
    obtain ⟨t1, b1, s1, so1, a1, e1, w1⟩ := hfields (initResult name ver ts)
    obtain ⟨t2, b2, s2, so2, a2, e2, w2⟩ := hfields (run_all_tests p1 p2 p3 p4 (initResult name ver ts))
    refine ⟨by rw [t2, t1], ?_, ?_, ?_, ?_, ?_, ?_⟩
    · rw [b2, b1]; simp [initResult]
    · rw [s2, s1]; simp [initResult]
    · rw [so2, so1]; simp [initResult]
    · rw [a2, a1]; simp [initResult]
    · rw [e2, e1]; simp [initResult]
    · rw [w2, w1]; simp [initResult]

/-- Witness for the amended C5: with an instantiation phase that
deterministically fails and no-op remaining phases, the second run's
errors are the first run's entries appended twice, and the timestamps
coincide. -/
theorem run_twice_accumulates_witness :
    (run_all_tests (fun s => ((test_instantiation (α := LLMInstance) (.error "x") s).1, none))
        (fun s => (s, none)) (fun s => (s, none)) (fun s => (s, none))
        (run_all_tests (fun s => ((test_instantiation (α := LLMInstance) (.error "x") s).1, none))
          (fun s => (s, none)) (fun s => (s, none)) (fun s => (s, none))
          (initResult "Flaky" "unknown" 0))).errors =
      (run_all_tests (fun s => ((test_instantiation (α := LLMInstance) (.error "x") s).1, none))
        (fun s => (s, none)) (fun s => (s, none)) (fun s => (s, none))
        (initResult "Flaky" "unknown" 0)).errors ++
      (run_all_tests (fun s => ((test_instantiation (α := LLMInstance) (.error "x") s).1, none))
        (fun s => (s, none)) (fun s => (s, none)) (fun s => (s, none))
        (initResult "Flaky" "unknown" 0)).errors := by
  have hid : PhaseUniform (fun s : IntegrationTestResult => (s, none)) :=
    ⟨⟨[], [], false, false, false, false, [], none⟩, fun r => by simp [applyEffect]⟩
  have hinst : PhaseUniform
      (fun s : IntegrationTestResult => ((test_instantiation (α := LLMInstance) (.error "x") s).1, none)) :=
    ⟨⟨["Instantiation failed: x"], [], false, false, false, false, [], none⟩,
      fun r => by simp [applyEffect, test_instantiation]⟩
  exact (run_twice_accumulates _ _ _ _ hinst hid hid hid "Flaky" "unknown" 0).2.2.2.2.2.1

lemma test_required_methods_foldl_errors (cls : PyClass) :
    ∀ (l : List String) (r : IntegrationTestResult) (m : List (String × Bool)),
      ((l.foldl (test_required_methods_step cls) (r, m)).1).errors =
        r.errors ++ requiredMethodErrors cls l := by
  intro l
  induction l with
  | nil => intro r m; simp [requiredMethodErrors]
  | cons name rest ih =>
    intro r m
    simp only [List.foldl_cons, test_required_methods_step, requiredMethodErrors]
    by_cases h1 : cls.hasAttr name <;> by_cases h2 : cls.attrCallable name <;>
      simp [h1, h2, ih, List.append_assoc]

lemma mem_requiredMethodErrors {cls : PyClass} {e : String} :
    ∀ {l : List String}, e ∈ requiredMethodErrors cls l →
      ∃ name ∈ l, e = "Missing required method: " ++ name ∨
        e = "Method " ++ name ++ " is not callable" := by
  intro l
  induction l with
  | nil => intro h; simp [requiredMethodErrors] at h
  | cons name rest ih =>
    intro h
    rw [requiredMethodErrors] at h
    rcases List.mem_append.mp h with h | h
    · split_ifs at h with h1 h2
      · simp at h
      · simp at h; exact ⟨name, by simp, Or.inr h⟩
      · simp at h; exact ⟨name, by simp, Or.inl h⟩
    · obtain ⟨n, hn, hc⟩ := ih h
      exact ⟨n, by simp [hn], hc⟩

lemma missing_mem_requiredMethodErrors {cls : PyClass} {name : String} :
    ∀ {l : List String}, name ∈ l → cls.hasAttr name = false →
      ("Missing required method: " ++ name) ∈ requiredMethodErrors cls l := by
  intro l
  induction l with
  | nil => intro h _; simp at h
  | cons x rest ih =>
    intro h hmiss
    rw [requiredMethodErrors]
    rcases List.mem_cons.mp h with h | h
    · subst h
      rw [if_neg (by simp [hmiss])]
      simp
    · exact List.mem_append_right _ (ih h hmiss)

lemma notCallable_mem_requiredMethodErrors {cls : PyClass} {name : String} :
    ∀ {l : List String}, name ∈ l → cls.hasAttr name = true →
      cls.attrCallable name = false →
      ("Method " ++ name ++ " is not callable") ∈ requiredMethodErrors cls l := by
  intro l
  induction l with
  | nil => intro h _ _; simp at h
  | cons x rest ih =>
    intro h hhas hnc
    rw [requiredMethodErrors]
    rcases List.mem_cons.mp h with h | h
    · subst h
      rw [if_pos hhas, if_neg (by simp [hnc])]
      simp
    · exact List.mem_append_right _ (ih h hhas hnc)

/-- C7: in the presence-check phase run with the LLM strategy's lists, a
required method absent from the class always contributes
`"Missing required method: <name>"` to `errors`, a required method that
is present but not callable contributes `"Method <name> is not
callable"`, and no optional method's absence ever contributes an
`errors` entry (the appended entries never mention an optional name). -/
theorem required_vs_optional_method_errors (cls : PyClass) (r : IntegrationTestResult) :
    (∀ name ∈ LLM_REQUIRED_METHODS,
      (cls.hasAttr name = false →
        ("Missing required method: " ++ name) ∈
          (test_required_methods LLM_REQUIRED_METHODS cls r).1.errors) ∧
      (cls.hasAttr name = true → cls.attrCallable name = false →
        ("Method " ++ name ++ " is not callable") ∈
          (test_required_methods LLM_REQUIRED_METHODS cls r).1.errors)) ∧
    (∃ es, (test_required_methods LLM_REQUIRED_METHODS cls r).1.errors = r.errors ++ es ∧
      ∀ name ∈ LLM_OPTIONAL_METHODS,
        ("Missing required method: " ++ name) ∉ es ∧
        ("Method " ++ name ++ " is not callable") ∉ es) := by
  have herr : (test_required_methods LLM_REQUIRED_METHODS cls r).1.errors =
      r.errors ++ requiredMethodErrors cls LLM_REQUIRED_METHODS :=
    test_required_methods_foldl_errors cls LLM_REQUIRED_METHODS r []
  constructor
  · intro name hname
    constructor
    · intro hmiss
      rw [herr]
      exact List.mem_append_right _ (missing_mem_requiredMethodErrors hname hmiss)
    · intro hhas hnc
      rw [herr]
      exact List.mem_append_right _ (notCallable_mem_requiredMethodErrors hname hhas hnc)
  · refine ⟨requiredMethodErrors cls LLM_REQUIRED_METHODS, herr, ?_⟩
    intro name hopt
    constructor
    · intro hmem
      obtain ⟨n, hn, hc⟩ := mem_requiredMethodErrors hmem
      fin_cases hopt <;> fin_cases hn <;> revert hc <;> decide
    · intro hmem
      obtain ⟨n, hn, hc⟩ := mem_requiredMethodErrors hmem
      fin_cases hopt <;> fin_cases hn <;> revert hc <;> decide

/-- Witness for C7: against a class exposing only a non-callable
`invoke`, the presence check reports the missing required `ainvoke` and
the non-callable `invoke`. -/
theorem required_vs_optional_method_errors_witness :
    ("Missing required method: ainvoke") ∈
      (test_required_methods LLM_REQUIRED_METHODS invokeOnlyClass
        (initResult "M" "unknown" 0)).1.errors ∧
    ("Method invoke is not callable") ∈
      (test_required_methods LLM_REQUIRED_METHODS invokeOnlyClass
        (initResult "M" "unknown" 0)).1.errors := by
  have h := required_vs_optional_method_errors invokeOnlyClass (initResult "M" "unknown" 0)
  exact ⟨(h.1 "ainvoke" (by simp [LLM_REQUIRED_METHODS])).1 (by decide),
    (h.1 "invoke" (by simp [LLM_REQUIRED_METHODS])).2 (by decide) (by decide)⟩

lemma find_map_overwrite (t : List (String × ℚ)) (k : String) (v : ℚ)
    (ha : t.any (fun x => decide (x.1 = k)) = true) :
    (t.map (fun x => if x.1 = k then (k, v) else x)).find? (fun x => decide (x.1 = k)) =
      some (k, v) := by
  induction t with
  | nil => simp at ha
  | cons x t ih =>
    rw [List.map_cons]
    by_cases hx : x.1 = k
    · rw [if_pos hx, List.find?_cons_of_pos _ (by simp)]
    · rw [if_neg hx, List.find?_cons_of_neg _ (by simp [hx])]
      apply ih
      rw [List.any_cons] at ha
      simpa [hx] using ha

lemma find_append_new (t : List (String × ℚ)) (k : String) (v : ℚ)
    (ha : t.any (fun x => decide (x.1 = k)) = false) :
    (t ++ [(k, v)]).find? (fun x => decide (x.1 = k)) = some (k, v) := by
  induction t with
  | nil => rw [List.nil_append, List.find?_cons_of_pos _ (by simp)]
  | cons x t ih =>
    rw [List.any_cons] at ha
    have hx : ¬ x.1 = k := by
      intro hc
      simp [hc] at ha
    rw [List.cons_append, List.find?_cons_of_neg _ (by simp [hx])]
    apply ih
    simpa [hx] using ha

lemma find_map_overwrite_ne (t : List (String × ℚ)) (k k' : String) (v : ℚ)
    (h : ¬ k' = k) :
    (t.map (fun x => if x.1 = k then (k, v) else x)).find? (fun x => decide (x.1 = k')) =
      t.find? (fun x => decide (x.1 = k')) := by
  induction t with
  | nil => rfl
  | cons x t ih =>
    rw [List.map_cons]
    by_cases hx : x.1 = k
    · have hx' : ¬ ((k, v).1 = k') := fun hc => h hc.symm
      have hxk' : ¬ x.1 = k' := by rw [hx]; exact fun hc => h hc.symm
      rw [if_pos hx,
        List.find?_cons_of_neg _ (by simp only [decide_eq_true_eq]; exact hx'),
        List.find?_cons_of_neg _ (by simp only [decide_eq_true_eq]; exact hxk'), ih]
    · rw [if_neg hx]
      by_cases hx' : x.1 = k'
      · rw [List.find?_cons_of_pos _ (by simp [hx']), List.find?_cons_of_pos _ (by simp [hx'])]
      · rw [List.find?_cons_of_neg _ (by simp [hx']),
          List.find?_cons_of_neg _ (by simp [hx']), ih]

lemma find_append_new_ne (t : List (String × ℚ)) (k k' : String) (v : ℚ)
    (h : ¬ k' = k) :
    (t ++ [(k, v)]).find? (fun x => decide (x.1 = k')) =
      t.find? (fun x => decide (x.1 = k')) := by
  induction t with
  | nil =>
    rw [List.nil_append,
      List.find?_cons_of_neg _ (by simp only [decide_eq_true_eq]; exact fun hc => h hc.symm)]
  | cons x t ih =>
    by_cases hx : x.1 = k'
    · rw [List.cons_append, List.find?_cons_of_pos _ (by simp [hx]),
        List.find?_cons_of_pos _ (by simp [hx])]
    · rw [List.cons_append, List.find?_cons_of_neg _ (by simp [hx]),
        List.find?_cons_of_neg _ (by simp [hx]), ih]

lemma getMetric_setMetric_same (m : List (String × ℚ)) (k : String) (v : ℚ) :
    getMetric (setMetric m k v) k = some v := by
  unfold getMetric setMetric dictSet
  by_cases ha : m.any (fun x => decide (x.1 = k)) = true
  · rw [if_pos ha, find_map_overwrite m k v ha]
    rfl
  · have ha' : m.any (fun x => decide (x.1 = k)) = false := by
      simp only [Bool.not_eq_true] at ha
      exact ha
    rw [if_neg ha, find_append_new m k v ha']
    rfl

lemma getMetric_setMetric_ne (m : List (String × ℚ)) (k k' : String) (v : ℚ)
    (h : k' ≠ k) : getMetric (setMetric m k v) k' = getMetric m k' := by
  unfold getMetric setMetric dictSet
  by_cases ha : m.any (fun x => decide (x.1 = k)) = true
  · rw [if_pos ha, find_map_overwrite_ne m k k' v h]
  · rw [if_neg ha, find_append_new_ne m k k' v h]

lemma consumeChunks_all_yield (s : Nat → StreamStep) (c : Nat → String) (q : Nat → ℚ) :
    ∀ (fuel i : Nat), (∀ j, j < fuel → s (i + j) = .yield (c (i + j)) (q (i + j))) →
      ∃ chunks, consumeChunks s i fuel =
        (chunks, ∑ j in Finset.range fuel, q (i + j), none) ∧ chunks.length = fuel := by
  intro fuel
  induction fuel with
  | zero => intro i _; exact ⟨[], by simp [consumeChunks], rfl⟩
  | succ n ih =>
    intro i h
    have h0 : s i = .yield (c i) (q i) := by
      have := h 0 (Nat.succ_pos n); simpa using this
    obtain ⟨chunks, hc, hl⟩ := ih (i + 1) (fun j hj => by
      have := h (j + 1) (Nat.succ_lt_succ hj)
      rw [show i + (j + 1) = i + 1 + j by omega] at this
      exact this)
    refine ⟨c i :: chunks, ?_, by simp [hl]⟩
    rw [consumeChunks, h0, hc]
    have hsum : ∑ j in Finset.range (n + 1), q (i + j) =
        q i + ∑ j in Finset.range n, q (i + 1 + j) := by
      rw [Finset.sum_range_succ', Nat.add_zero, add_comm]
      congr 1
      exact Finset.sum_congr rfl (fun j _ => by
        rw [show i + (j + 1) = i + 1 + j from by omega])
    rw [hsum]

/-- Counterexample to C4: against a component whose stream yields 1000
chunks, the probe records `chunks_received = 11`, not 10 — the loop
appends the chunk first and only then tests `len(chunks) > 10`. -/
theorem streaming_cap_counterexample :
    getMetric (test_streaming_support thousandChunkInst
      (initResult "S" "unknown" 0)).1.performance_metrics "chunks_received" ≠ some 10 ∧
    getMetric (test_streaming_support thousandChunkInst
      (initResult "S" "unknown" 0)).1.performance_metrics "chunks_received" = some 11 := by
  constructor
  · decide
  · decide

/-- C4 amended: for every component whose streaming method yields more
than 10 chunks (in particular an unbounded stream), the probe terminates
after consuming exactly 11 chunks (the break fires only after the 11th
append), records `chunks_received = 11` and `streaming_latency` equal to
the arrival time of just that consumed prefix (independent of the rest
of the stream), and sets `supports_streaming`. -/
theorem streaming_cap_consumes_eleven (inst : LLMInstance) (r : IntegrationTestResult)
    (c : Nat → String) (q : Nat → ℚ)
    (hs : inst.hasAttr "stream" = true)
    (hy : ∀ j, j < 11 → inst.stream "Tell me a short story." j = .yield (c j) (q j)) :
    (test_streaming_support inst r).1.streaming_support = true ∧
    getMetric (test_streaming_support inst r).1.performance_metrics "chunks_received" =
      some 11 ∧
    getMetric (test_streaming_support inst r).1.performance_metrics "streaming_latency" =
      some (∑ j in Finset.range 11, q j) ∧
    (test_streaming_support inst r).2 = true := by
  obtain ⟨chunks, hc, hl⟩ := consumeChunks_all_yield
    (inst.stream "Tell me a short story.") c q 11 0 (fun j hj => by simpa using hy j hj)
  simp only [Nat.zero_add] at hc
  have hne : chunks.isEmpty = false := by
    cases chunks with
    | nil => simp at hl
    | cons a l => rfl
  have hres : test_streaming_support inst r =
      ({ r with streaming_support := true, performance_metrics := setMetric (setMetric r.performance_metrics "streaming_latency" (∑ j in Finset.range 11, q j)) "chunks_received" (chunks.length : ℚ) }, true) := by
    unfold test_streaming_support
    rw [hs, hc]
    simp [hne]
  rw [hres]
  refine ⟨rfl, ?_, ?_, rfl⟩
  · rw [hl]
    exact getMetric_setMetric_same _ _ _
  · rw [getMetric_setMetric_ne _ _ _ _ (by decide)]
    exact getMetric_setMetric_same _ _ _

/-- Witness for the amended C4: on the 1000-chunk component the probe
sets the flag, records 11 chunks and a latency of 11 time units. -/
theorem streaming_cap_consumes_eleven_witness :
    (test_streaming_support thousandChunkInst (initResult "S" "unknown" 0)).1.streaming_support = true ∧
    getMetric (test_streaming_support thousandChunkInst
      (initResult "S" "unknown" 0)).1.performance_metrics "streaming_latency" =
      some (∑ j in Finset.range 11, (fun _ => (1 : ℚ)) j) := by
  have h := streaming_cap_consumes_eleven thousandChunkInst (initResult "S" "unknown" 0)
    (fun _ => "chunk") (fun _ => (1 : ℚ)) (by decide) (fun j hj => by
      show thousandChunkInst.stream "Tell me a short story." j = _
      simp only [thousandChunkInst]
      rw [if_pos (by omega)])
  exact ⟨h.1, h.2.2.1⟩

lemma isEmpty_false_of_ne_nil {α : Type} {l : List α} (h : l ≠ []) : l.isEmpty = false := by
  cases l with
  | nil => exact absurd rfl h
  | cons a t => rfl

lemma all_eq_of_dedup_length_one {l : List Nat} (h : l.dedup.length = 1) :
    ∀ x ∈ l, ∀ y ∈ l, x = y := by
  obtain ⟨z, hz⟩ := List.length_eq_one.mp h
  intro x hx y hy
  have hx' : x ∈ l.dedup := List.mem_dedup.mpr hx
  have hy' : y ∈ l.dedup := List.mem_dedup.mpr hy
  rw [hz] at hx' hy'
  simp at hx' hy'
  rw [hx', hy']

/-- C8: in the dimension-consistency probe, when the three queries embed
to non-empty vectors, a mismatch among the three lengths appends exactly
one error that carries the observed length list itself (not a generic
message) and the probe reports failure; equal lengths append nothing and
the probe reports success. -/
theorem dimension_consistency_diagnostics (inst : EmbInstance) (r : IntegrationTestResult)
    (l1 l2 l3 : List ℚ)
    (h1 : inst.embedQuery "Short query" = .ok (.list l1)) (hn1 : l1 ≠ [])
    (h2 : inst.embedQuery
      "This is a much longer query with more words to test dimension consistency" =
      .ok (.list l2)) (hn2 : l2 ≠ [])
    (h3 : inst.embedQuery "Medium length query for testing" = .ok (.list l3))
    (hn3 : l3 ≠ []) :
    (¬ (l1.length = l2.length ∧ l2.length = l3.length) →
      (test_dimension_consistency inst r).1.errors = r.errors ++
        ["Inconsistent embedding dimensions: " ++ pyListRepr [l1.length, l2.length, l3.length]] ∧
      (test_dimension_consistency inst r).2 = false) ∧
    ((l1.length = l2.length ∧ l2.length = l3.length) →
      (test_dimension_consistency inst r).1.errors = r.errors ∧
      (test_dimension_consistency inst r).2 = true) := by
  have hdims : collectDims inst dimensionTestQueries [] =
      .ok [l1.length, l2.length, l3.length] := by
    simp [dimensionTestQueries, collectDims, h1, h2, h3,
      isEmpty_false_of_ne_nil hn1, isEmpty_false_of_ne_nil hn2, isEmpty_false_of_ne_nil hn3]
  constructor
  · intro hne
    have hcond : ¬ (¬ ([l1.length, l2.length, l3.length] : List Nat).isEmpty ∧
        ([l1.length, l2.length, l3.length] : List Nat).dedup.length = 1) := by
      rintro ⟨_, hd⟩
      have hall := all_eq_of_dedup_length_one hd
      exact hne ⟨hall l1.length (by simp) l2.length (by simp),
        hall l2.length (by simp) l3.length (by simp)⟩
    have hres : test_dimension_consistency inst r =
        ({ r with errors := r.errors ++
          ["Inconsistent embedding dimensions: " ++ pyListRepr [l1.length, l2.length, l3.length]] },
         false) := by
      unfold test_dimension_consistency
      rw [hdims]
      dsimp only
      rw [if_neg hcond]
    rw [hres]
    exact ⟨rfl, rfl⟩
  · rintro ⟨e12, e23⟩
    have hb : l2.length = l1.length := e12.symm
    have hc : l3.length = l1.length := (e12.trans e23).symm
    have hcond : (¬ ([l1.length, l2.length, l3.length] : List Nat).isEmpty = true ∧
        ([l1.length, l2.length, l3.length] : List Nat).dedup.length = 1) := by
      rw [hb, hc]
      refine ⟨by simp, ?_⟩
      rw [List.dedup_cons_of_mem (by simp), List.dedup_cons_of_mem (by simp)]
      simp
    have hres : test_dimension_consistency inst r = (r, true) := by
      unfold test_dimension_consistency
      rw [hdims]
      dsimp only
      rw [if_pos hcond]
    rw [hres]
    exact ⟨rfl, rfl⟩

/-- Witness for C8: the embeddings component returning dimensions
1, 2, 1 for the three queries gets exactly the diagnostic error listing
`[1, 2, 1]` and a failed probe. -/
theorem dimension_consistency_diagnostics_witness :
    (test_dimension_consistency mismatchedEmbInst (initResult "E" "unknown" 0)).1.errors =
      ["Inconsistent embedding dimensions: " ++ pyListRepr [1, 2, 1]] ∧
    (test_dimension_consistency mismatchedEmbInst (initResult "E" "unknown" 0)).2 = false := by
  have h := (dimension_consistency_diagnostics mismatchedEmbInst (initResult "E" "unknown" 0)
    [0] [0, 0] [0] rfl (by simp) rfl (by simp) rfl (by simp)).1 (by simp)
  exact ⟨by simpa using h.1, h.2⟩

lemma applyEffect_fst_compose (E1 E2 : PhaseEffect) (r : IntegrationTestResult) :
    (applyEffect E2 (applyEffect E1 r).1).1 = (applyEffect (opComposeEffect E1 E2) r).1 := by
  simp [applyEffect, opComposeEffect, List.append_assoc, Bool.or_assoc, List.foldl_append]

lemma OpUniform.comp {f g : IntegrationTestResult → IntegrationTestResult}
    (hf : OpUniform f) (hg : OpUniform g) : OpUniform (fun r => g (f r)) := by
  rcases hf with ⟨E1, h1⟩
  rcases hg with ⟨E2, h2⟩
  exact ⟨opComposeEffect E1 E2, fun r => by
    show g (f r) = _
    rw [h1 r, h2, applyEffect_fst_compose]⟩

lemma OpUniform.recordMono {f : IntegrationTestResult → IntegrationTestResult}
    (h : OpUniform f) : ∀ r, RecordMono r (f r) := by
  rcases h with ⟨E, hE⟩
  intro r
  rw [hE r]
  exact ⟨fun hx => by simp [applyEffect, hx], fun hx => by simp [applyEffect, hx],
    fun hx => by simp [applyEffect, hx], fun hx => by simp [applyEffect, hx],
    ⟨E.errs, by simp [applyEffect]⟩, ⟨E.warns, by simp [applyEffect]⟩⟩

lemma OpUniform.errors_append {f : IntegrationTestResult → IntegrationTestResult}
    (h : OpUniform f) (r : IntegrationTestResult) : ∃ es, (f r).errors = r.errors ++ es := by
  rcases h with ⟨E, hE⟩
  exact ⟨E.errs, by rw [hE r]; simp [applyEffect]⟩

lemma RecordMono.rfl (a : IntegrationTestResult) : RecordMono a a :=
  ⟨id, id, id, id, ⟨[], by simp⟩, ⟨[], by simp⟩⟩

lemma RecordMono.trans {a b c : IntegrationTestResult}
    (h1 : RecordMono a b) (h2 : RecordMono b c) : RecordMono a c := by
  obtain ⟨f1, f2, f3, f4, ⟨es1, he1⟩, ⟨ws1, hw1⟩⟩ := h1
  obtain ⟨g1, g2, g3, g4, ⟨es2, he2⟩, ⟨ws2, hw2⟩⟩ := h2
  exact ⟨fun h => g1 (f1 h), fun h => g2 (f2 h), fun h => g3 (f3 h), fun h => g4 (f4 h),
    ⟨es1 ++ es2, by rw [he2, he1, List.append_assoc]⟩,
    ⟨ws1 ++ ws2, by rw [hw2, hw1, List.append_assoc]⟩⟩

lemma errAppend_uniform (msg : String) :
    OpUniform (fun r => { r with errors := r.errors ++ [msg] }) :=
  ⟨⟨[msg], [], false, false, false, false, [], none⟩, fun r => by simp [applyEffect]⟩

lemma test_instantiation_uniform {α : Type} (ctor : Except String α) :
    OpUniform (fun r => (test_instantiation ctor r).1) := by
  rcases ctor with e | a
  · exact ⟨⟨["Instantiation failed: " ++ e], [], false, false, false, false, [], none⟩,
      fun r => by simp [test_instantiation, applyEffect]⟩
  · exact ⟨⟨[], [], false, false, false, false, [], none⟩,
      fun r => by simp [test_instantiation, applyEffect]⟩

lemma test_error_handling_uniform {α : Type} (ctor : Except String α)
    (scen : α → List (String × Bool)) :
    OpUniform (fun r => (test_error_handling ctor scen r).1) := by
  rcases ctor with e | a
  · exact ⟨⟨[], ["Error handling test failed: " ++ e], false, false, false, false, [], none⟩,
      fun r => by simp [test_error_handling, applyEffect]⟩
  · exact ⟨⟨[], [], false, false, false, false, [], none⟩,
      fun r => by simp [test_error_handling, applyEffect]⟩

lemma test_required_methods_foldl_record (cls : PyClass) :
    ∀ (l : List String) (r : IntegrationTestResult) (m : List (String × Bool)),
      (l.foldl (test_required_methods_step cls) (r, m)).1 =
        { r with errors := r.errors ++ requiredMethodErrors cls l } := by
  intro l
  induction l with
  | nil => intro r m; simp [requiredMethodErrors]
  | cons name rest ih =>
    intro r m
    simp only [List.foldl_cons, test_required_methods_step, requiredMethodErrors]
    by_cases h1 : cls.hasAttr name <;> by_cases h2 : cls.attrCallable name <;>
      simp [h1, h2, ih, List.append_assoc]

lemma test_required_methods_uniform (required : List String) (cls : PyClass) :
    OpUniform (fun r => (test_required_methods required cls r).1) := by
  refine ⟨⟨requiredMethodErrors cls required, [], false, false, false, false, [], none⟩,
    fun r => ?_⟩
  show (test_required_methods required cls r).1 = _
  unfold test_required_methods
  rw [test_required_methods_foldl_record cls required r []]
  simp [applyEffect]

lemma test_invoke_uniform (inst : LLMInstance) :
    OpUniform (fun r => (test_invoke inst r).1) := by
  rcases h : inst.invokeRes "Hello, this is a test message." with e | resp
  · exact ⟨⟨["Invoke test failed: " ++ e], [], false, false, false, false, [], none⟩,
      fun r => by simp [test_invoke, h, applyEffect]⟩
  · by_cases hc : resp.truthy = true ∧ 0 < resp.strLen
    · exact ⟨⟨[], [], false, false, false, false, [("invoke_latency", inst.invokeElapsed)], none⟩,
        fun r => by simp [test_invoke, h, hc, applyEffect]⟩
    · exact ⟨⟨[], ["Invoke returned empty or invalid response"], false, false, false, false,
        [("invoke_latency", inst.invokeElapsed)], none⟩,
        fun r => by simp [test_invoke, h, hc, applyEffect]⟩

lemma test_ainvoke_uniform (inst : LLMInstance) :
    OpUniform (fun r => (test_ainvoke inst r).1) := by
  cases ha : inst.hasAttr "ainvoke"
  · exact ⟨⟨[], ["ainvoke method not available"], false, false, false, false, [], none⟩,
      fun r => by simp [test_ainvoke, ha, applyEffect]⟩
  · rcases h : inst.ainvokeRes "Hello, this is an async test message." with e | resp
    · exact ⟨⟨["Async invoke test failed: " ++ e], [], false, false, false, false, [], none⟩,
        fun r => by simp [test_ainvoke, ha, h, applyEffect]⟩
    · by_cases hc : resp.truthy = true ∧ 0 < resp.strLen
      · exact ⟨⟨[], [], false, false, false, true,
          [("ainvoke_latency", inst.ainvokeElapsed)], none⟩,
          fun r => by simp [test_ainvoke, ha, h, hc, applyEffect]⟩
      · exact ⟨⟨[], ["Async invoke returned empty or invalid response"], false, false, false, true,
          [("ainvoke_latency", inst.ainvokeElapsed)], none⟩,
          fun r => by simp [test_ainvoke, ha, h, hc, applyEffect]⟩

lemma test_streaming_support_uniform (inst : LLMInstance) :
    OpUniform (fun r => (test_streaming_support inst r).1) := by
  cases ha : inst.hasAttr "stream"
  · exact ⟨⟨[], ["stream method not available"], false, false, false, false, [], none⟩,
      fun r => by simp [test_streaming_support, ha, applyEffect]⟩
  · rcases hc : consumeChunks (inst.stream "Tell me a short story.") 0 11 with ⟨chunks, elapsed, e?⟩
    cases e? with
    | some e =>
      exact ⟨⟨["Streaming test failed: " ++ e], [], false, false, false, false, [], none⟩,
        fun r => by simp [test_streaming_support, ha, hc, applyEffect]⟩
    | none =>
      cases chunks with
      | nil =>
        exact ⟨⟨[], ["Streaming produced no chunks"], false, false, false, false, [], none⟩,
          fun r => by simp [test_streaming_support, ha, hc, applyEffect]⟩
      | cons c0 cs =>
        exact ⟨⟨[], [], false, true, false, false,
          [("streaming_latency", elapsed), ("chunks_received", ((c0 :: cs).length : ℚ))], none⟩,
          fun r => by simp [test_streaming_support, ha, hc, applyEffect]⟩

lemma test_bind_tools_support_uniform (inst : LLMInstance) :
    OpUniform (fun r => (test_bind_tools_support inst r).1) := by
  cases ha : inst.hasAttr "bind_tools"
  · exact ⟨⟨["bind_tools method not available"], [], false, false, false, false, [], none⟩,
      fun r => by simp [test_bind_tools_support, ha, applyEffect]⟩
  · rcases h : inst.bindToolsRes with e | b
    · exact ⟨⟨["bind_tools test failed: " ++ e], [], false, false, false, false, [], none⟩,
        fun r => by simp [test_bind_tools_support, ha, h, applyEffect]⟩
    · cases hb : b.truthy
      · exact ⟨⟨[], [], false, false, false, false, [], none⟩,
          fun r => by simp [test_bind_tools_support, ha, h, hb, applyEffect]⟩
      · rcases hi : b.invokeRes with te | t
        · exact ⟨⟨[], ["Tool binding works but execution failed: " ++ te], true, false, false, false, [], none⟩,
            fun r => by simp [test_bind_tools_support, ha, h, hb, hi, applyEffect]⟩
        · exact ⟨⟨[], [], true, false, false, false, [], none⟩,
            fun r => by cases t <;> simp [test_bind_tools_support, ha, h, hb, hi, applyEffect]⟩

lemma test_structured_output_uniform (inst : LLMInstance) :
    OpUniform (fun r => (test_structured_output inst r).1) := by
  cases ha : inst.hasAttr "with_structured_output"
  · exact ⟨⟨[], ["with_structured_output method not available"], false, false, false, false, [], none⟩,
      fun r => by simp [test_structured_output, ha, applyEffect]⟩
  · rcases h : inst.structuredRes with e | s
    · exact ⟨⟨["Structured output test failed: " ++ e], [], false, false, false, false, [], none⟩,
        fun r => by simp [test_structured_output, ha, h, applyEffect]⟩
    · cases hs : s.truthy
      · exact ⟨⟨[], [], false, false, false, false, [], none⟩,
          fun r => by simp [test_structured_output, ha, h, hs, applyEffect]⟩
      · rcases hi : s.invokeRes with se | t
        · exact ⟨⟨[], ["Structured output binding works but execution failed: " ++ se], false, false, true, false, [], none⟩,
            fun r => by simp [test_structured_output, ha, h, hs, hi, applyEffect]⟩
        · exact ⟨⟨[], [], false, false, true, false, [], none⟩,
            fun r => by cases t <;> simp [test_structured_output, ha, h, hs, hi, applyEffect]⟩

lemma llm_test_method_functionality_uniform (ctor : Except String LLMInstance) :
    OpUniform (fun r => (llm_test_method_functionality ctor r).1) := by
  rcases ctor with e | inst
  · exact ⟨⟨["Method functionality testing failed: " ++ e], [], false, false, false, false, [], none⟩,
      fun r => by simp [llm_test_method_functionality, applyEffect]⟩
  · have h12 := OpUniform.comp (test_invoke_uniform inst) (test_ainvoke_uniform inst)
    have h13 := OpUniform.comp h12 (test_streaming_support_uniform inst)
    have h14 := OpUniform.comp h13 (test_bind_tools_support_uniform inst)
    have h15 := OpUniform.comp h14 (test_structured_output_uniform inst)
    exact h15

lemma test_message_handling_uniform (inst : ChatInstance) :
    OpUniform (fun r => (test_message_handling inst r).1) := by
  rcases h : inst.invokeMsgs [.human "Hello, how are you?"] with e | resp
  · exact ⟨⟨["Message handling test failed: " ++ e], [], false, false, false, false, [], none⟩,
      fun r => by simp [test_message_handling, h, applyEffect]⟩
  · by_cases hc : resp.truthy = true ∧ resp.hasContent = true
    · exact ⟨⟨[], [], false, false, false, false, [], none⟩,
        fun r => by simp [test_message_handling, h, hc, applyEffect]⟩
    · exact ⟨⟨[], ["Message handling returned invalid response format"], false, false, false, false, [], none⟩,
        fun r => by simp [test_message_handling, h, hc, applyEffect]⟩

lemma test_system_message_support_uniform (inst : ChatInstance) :
    OpUniform (fun r => (test_system_message_support inst r).1) := by
  rcases h : inst.invokeMsgs [.system "You are a helpful assistant.", .human "What is 2+2?"] with e | resp
  · exact ⟨⟨[], ["System message support test failed: " ++ e], false, false, false, false, [], none⟩,
      fun r => by simp [test_system_message_support, h, applyEffect]⟩
  · cases hc : resp.truthy
    · exact ⟨⟨[], ["System message support test returned no response"], false, false, false, false, [], none⟩,
        fun r => by simp [test_system_message_support, h, hc, applyEffect]⟩
    · exact ⟨⟨[], [], false, false, false, false, [], none⟩,
        fun r => by simp [test_system_message_support, h, hc, applyEffect]⟩

lemma test_conversation_handling_uniform (inst : ChatInstance) :
    OpUniform (fun r => (test_conversation_handling inst r).1) := by
  rcases h : inst.invokeMsgs [.human "My name is Alice.", .human "What is my name?"] with e | resp
  · exact ⟨⟨[], ["Conversation handling test failed: " ++ e], false, false, false, false, [], none⟩,
      fun r => by simp [test_conversation_handling, h, applyEffect]⟩
  · cases hc : resp.truthy
    · exact ⟨⟨[], ["Conversation handling test returned no response"], false, false, false, false, [], none⟩,
        fun r => by simp [test_conversation_handling, h, hc, applyEffect]⟩
    · exact ⟨⟨[], [], false, false, false, false, [], none⟩,
        fun r => by simp [test_conversation_handling, h, hc, applyEffect]⟩

lemma chat_test_method_functionality_uniform (ctor : Except String ChatInstance) :
    OpUniform (fun r => (chat_test_method_functionality ctor r).1) := by
  rcases ctor with e | inst
  · exact ⟨⟨["Chat model functionality testing failed: " ++ e], [], false, false, false, false, [], none⟩,
      fun r => by simp [chat_test_method_functionality, applyEffect]⟩
  · have h12 := OpUniform.comp (test_message_handling_uniform inst)
      (test_system_message_support_uniform inst)
    have h13 := OpUniform.comp h12 (test_conversation_handling_uniform inst)
    have h14 := OpUniform.comp h13 (errAppend_uniform
      "Chat model functionality testing failed: \x27NoneType\x27 object is not iterable")
    exact h14

lemma test_embed_documents_uniform (inst : EmbInstance) :
    OpUniform (fun r => (test_embed_documents inst r).1) := by
  rcases h : inst.embedDocuments ["This is a test document.",
    "Another test document for embedding.", "A third document to test batch embedding."] with e | embs
  · exact ⟨⟨["embed_documents test failed: " ++ e], [], false, false, false, false, [], none⟩,
      fun r => by simp [test_embed_documents, h, applyEffect]⟩
  · by_cases h1 : embs = []
    · exact ⟨⟨["embed_documents returned wrong number of embeddings"], [], false, false, false, false, [], none⟩,
        fun r => by simp [test_embed_documents, h, h1, applyEffect]⟩
    · by_cases h2 : embs.length = 3
      · by_cases h3 : ∀ x ∈ embs, (match x with
          | PyEmb.list l => !l.isEmpty
          | PyEmb.nonList _ => false) = true
        · refine ⟨⟨[], [], false, false, false, false, [("documents_embedded", (3 : ℚ))], none⟩,
            fun r => ?_⟩
          simp [test_embed_documents, h, h1, h2, applyEffect]
          rw [if_pos h3]
        · refine ⟨⟨["embed_documents returned invalid embedding format"], [], false, false, false, false, [], none⟩,
            fun r => ?_⟩
          simp [test_embed_documents, h, h1, h2, applyEffect]
          rw [if_neg h3]
      · exact ⟨⟨["embed_documents returned wrong number of embeddings"], [], false, false, false, false, [], none⟩,
          fun r => by simp [test_embed_documents, h, h1, h2, applyEffect]⟩

lemma test_embed_query_uniform (inst : EmbInstance) :
    OpUniform (fun r => (test_embed_query inst r).1) := by
  rcases h : inst.embedQuery "What is the meaning of life?" with e | v
  · exact ⟨⟨["embed_query test failed: " ++ e], [], false, false, false, false, [], none⟩,
      fun r => by simp [test_embed_query, h, applyEffect]⟩
  · rcases v with l | t
    · cases hl : l.isEmpty
      · exact ⟨⟨[], [], false, false, false, false, [("embedding_dimension", (l.length : ℚ))], none⟩,
          fun r => by simp [test_embed_query, h, hl, applyEffect]⟩
      · exact ⟨⟨["embed_query returned invalid embedding"], [], false, false, false, false, [], none⟩,
          fun r => by simp [test_embed_query, h, hl, applyEffect]⟩
    · exact ⟨⟨["embed_query returned invalid embedding"], [], false, false, false, false, [], none⟩,
        fun r => by simp [test_embed_query, h, applyEffect]⟩

lemma test_async_embeddings_uniform (inst : EmbInstance) :
    OpUniform (fun r => (test_async_embeddings inst r).1) := by
  have step2uniform : ∀ (E0 : PhaseEffect), True → True := fun _ _ => trivial
  cases ha1 : inst.hasAttr "aembed_query"
  case true =>
    rcases h1 : inst.aembedQuery "Async embedding test query" with e | v
    · exact ⟨⟨[], ["Async embeddings test failed: " ++ e], false, false, false, false, [], none⟩,
        fun r => by simp [test_async_embeddings, ha1, h1, applyEffect]⟩
    · cases hg : pyEmbGood v
      case true =>
        exact ⟨⟨[], [], false, false, false, true, [], none⟩,
          fun r => by simp [test_async_embeddings, ha1, h1, hg, applyEffect]⟩
      case false =>
        cases ha2 : inst.hasAttr "aembed_documents"
        case false =>
          exact ⟨⟨[], ["No async embedding methods available"], false, false, false, false, [], none⟩,
            fun r => by simp [test_async_embeddings, ha1, h1, hg, ha2, applyEffect]⟩
        case true =>
          rcases h2 : inst.aembedDocuments ["Async document embedding test"] with e | embs
          · exact ⟨⟨[], ["Async embeddings test failed: " ++ e], false, false, false, false, [], none⟩,
              fun r => by simp [test_async_embeddings, ha1, h1, hg, ha2, h2, applyEffect]⟩
          · by_cases hle : embs = []
            · exact ⟨⟨[], ["No async embedding methods available"], false, false, false, false, [], none⟩,
                fun r => by simp [test_async_embeddings, ha1, h1, hg, ha2, h2, hle, applyEffect]⟩
            · by_cases hlen : embs.length = 1
              · exact ⟨⟨[], [], false, false, false, true, [], none⟩,
                  fun r => by simp [test_async_embeddings, ha1, h1, hg, ha2, h2, hle, hlen, applyEffect]⟩
              · exact ⟨⟨[], ["No async embedding methods available"], false, false, false, false, [], none⟩,
                  fun r => by simp [test_async_embeddings, ha1, h1, hg, ha2, h2, hle, hlen, applyEffect]⟩
  case false =>
    cases ha2 : inst.hasAttr "aembed_documents"
    case false =>
      exact ⟨⟨[], ["No async embedding methods available"], false, false, false, false, [], none⟩,
        fun r => by simp [test_async_embeddings, ha1, ha2, applyEffect]⟩
    case true =>
      rcases h2 : inst.aembedDocuments ["Async document embedding test"] with e | embs
      · exact ⟨⟨[], ["Async embeddings test failed: " ++ e], false, false, false, false, [], none⟩,
          fun r => by simp [test_async_embeddings, ha1, ha2, h2, applyEffect]⟩
      · by_cases hle : embs = []
        · exact ⟨⟨[], ["No async embedding methods available"], false, false, false, false, [], none⟩,
            fun r => by simp [test_async_embeddings, ha1, ha2, h2, hle, applyEffect]⟩
        · by_cases hlen : embs.length = 1
          · exact ⟨⟨[], [], false, false, false, true, [], none⟩,
              fun r => by simp [test_async_embeddings, ha1, ha2, h2, hle, hlen, applyEffect]⟩
          · exact ⟨⟨[], ["No async embedding methods available"], false, false, false, false, [], none⟩,
              fun r => by simp [test_async_embeddings, ha1, ha2, h2, hle, hlen, applyEffect]⟩

lemma test_dimension_consistency_uniform (inst : EmbInstance) :
    OpUniform (fun r => (test_dimension_consistency inst r).1) := by
  rcases h : collectDims inst dimensionTestQueries [] with e | dims
  · exact ⟨⟨[], ["Dimension consistency test failed: " ++ e], false, false, false, false, [], none⟩,
      fun r => by simp [test_dimension_consistency, h, applyEffect]⟩
  · by_cases hc1 : dims = []
    · exact ⟨⟨["Inconsistent embedding dimensions: " ++ pyListRepr dims], [], false, false, false, false, [], none⟩,
        fun r => by simp [test_dimension_consistency, h, hc1, applyEffect]⟩
    · by_cases hc2 : dims.dedup.length = 1
      · exact ⟨⟨[], [], false, false, false, false, [], none⟩,
          fun r => by simp [test_dimension_consistency, h, hc1, hc2, applyEffect]⟩
      · exact ⟨⟨["Inconsistent embedding dimensions: " ++ pyListRepr dims], [], false, false, false, false, [], none⟩,
          fun r => by simp [test_dimension_consistency, h, hc1, hc2, applyEffect]⟩

lemma emb_test_method_functionality_uniform (ctor : Except String EmbInstance) :
    OpUniform (fun r => (emb_test_method_functionality ctor r).1) := by
  rcases ctor with e | inst
  · exact ⟨⟨["Embeddings functionality testing failed: " ++ e], [], false, false, false, false, [], none⟩,
      fun r => by simp [emb_test_method_functionality, applyEffect]⟩
  · have h12 := OpUniform.comp (test_embed_documents_uniform inst) (test_embed_query_uniform inst)
    have h13 := OpUniform.comp h12 (test_async_embeddings_uniform inst)
    have h14 := OpUniform.comp h13 (test_dimension_consistency_uniform inst)
    exact h14

/-- C6 (code bug): for every constructible chat component, the
chat-style functional-probing operation runs only its three
message-oriented probes — the returned mapping's keys are exactly
`message_handling`, `system_message`, `conversation`, with no
text-generation (base) probe outcomes folded in — and, because the
`super()` call resolves to the abstract base returning `None`, the
attempted `dict.update(None)` raises a `TypeError` that is caught and
appended as a `"Chat model functionality testing failed: ..."` error. -/
theorem chat_base_probes_not_folded (inst : ChatInstance) (r : IntegrationTestResult) :
    (chat_test_method_functionality (.ok inst) r).2.map Prod.fst =
      ["message_handling", "system_message", "conversation"] ∧
    ∃ es, (chat_test_method_functionality (.ok inst) r).1.errors =
      r.errors ++ es ++
        ["Chat model functionality testing failed: \x27NoneType\x27 object is not iterable"] := by
  constructor
  · rfl
  · obtain ⟨e1, h1⟩ := (test_message_handling_uniform inst).errors_append r
    obtain ⟨e2, h2⟩ := (test_system_message_support_uniform inst).errors_append
      (test_message_handling inst r).1
    obtain ⟨e3, h3⟩ := (test_conversation_handling_uniform inst).errors_append
      (test_system_message_support inst (test_message_handling inst r).1).1
    refine ⟨e1 ++ e2 ++ e3, ?_⟩
    show (test_conversation_handling inst
        (test_system_message_support inst (test_message_handling inst r).1).1).1.errors ++
      ["Chat model functionality testing failed: \x27NoneType\x27 object is not iterable"] = _
    rw [h3, h2, h1]
    simp [List.append_assoc]

lemma calculate_compatibility_score_recordMono (r : IntegrationTestResult) :
    RecordMono r (calculate_compatibility_score r) :=
  ⟨id, id, id, id, ⟨[], by simp [calculate_compatibility_score]⟩,
    ⟨[], by simp [calculate_compatibility_score]⟩⟩

lemma runPhase_fst_recordMono (p : Phase) (hp : ∀ r, RecordMono r (p r).1) :
    ∀ x : IntegrationTestResult × Option String, RecordMono x.1 (runPhase p x).1 := by
  rintro ⟨s, e?⟩
  cases e? with
  | none => exact hp s
  | some e => exact RecordMono.rfl s

lemma run_all_tests_recordMono (p1 p2 p3 p4 : Phase)
    (h1 : ∀ r, RecordMono r (p1 r).1) (h2 : ∀ r, RecordMono r (p2 r).1)
    (h3 : ∀ r, RecordMono r (p3 r).1) (h4 : ∀ r, RecordMono r (p4 r).1) :
    ∀ r, RecordMono r (run_all_tests p1 p2 p3 p4 r) := by
  intro r
  have hchain : RecordMono r (runPhases p1 p2 p3 p4 r).1 := by
    unfold runPhases
    exact ((((h1 r).trans (runPhase_fst_recordMono p2 h2 (p1 r))).trans
      (runPhase_fst_recordMono p3 h3 (runPhase p2 (p1 r)))).trans
      (runPhase_fst_recordMono p4 h4 (runPhase p3 (runPhase p2 (p1 r)))))
  unfold run_all_tests
  rcases hx : runPhases p1 p2 p3 p4 r with ⟨r', e?⟩
  rw [hx] at hchain
  cases e? with
  | none => exact hchain.trans (calculate_compatibility_score_recordMono r')
  | some e =>
    exact hchain.trans ⟨id, id, id, id,
      ⟨["Test execution failed: " ++ e], rfl⟩, ⟨[], by simp⟩⟩

/-- C9: every capability flag starts `false` at record construction, and
every operation of the pipeline — the shared phases, each concrete
probe of the LLM, chat and embeddings strategies, their functionality
wrappers, the scoring step and the whole `run_all_tests` pipeline built
from monotone phases — evolves the record monotonically: a `true` flag
is never reset, and `errors`/`warnings` only ever grow by appending. -/
theorem flags_monotone_and_lists_append_only :
    (∀ name ver ts, (initResult name ver ts).bind_tools_support = false ∧
      (initResult name ver ts).streaming_support = false ∧
      (initResult name ver ts).structured_output_support = false ∧
      (initResult name ver ts).async_support = false) ∧
    (∀ (α : Type) (ctor : Except String α) r, RecordMono r (test_instantiation ctor r).1) ∧
    (∀ required cls r, RecordMono r (test_required_methods required cls r).1) ∧
    (∀ (α : Type) (ctor : Except String α) scen r,
      RecordMono r (test_error_handling ctor scen r).1) ∧
    (∀ inst r, RecordMono r (test_invoke inst r).1) ∧
    (∀ inst r, RecordMono r (test_ainvoke inst r).1) ∧
    (∀ inst r, RecordMono r (test_streaming_support inst r).1) ∧
    (∀ inst r, RecordMono r (test_bind_tools_support inst r).1) ∧
    (∀ inst r, RecordMono r (test_structured_output inst r).1) ∧
    (∀ ctor r, RecordMono r (llm_test_method_functionality ctor r).1) ∧
    (∀ inst r, RecordMono r (test_message_handling inst r).1) ∧
    (∀ inst r, RecordMono r (test_system_message_support inst r).1) ∧
    (∀ inst r, RecordMono r (test_conversation_handling inst r).1) ∧
    (∀ ctor r, RecordMono r (chat_test_method_functionality ctor r).1) ∧
    (∀ inst r, RecordMono r (test_embed_documents inst r).1) ∧
    (∀ inst r, RecordMono r (test_embed_query inst r).1) ∧
    (∀ inst r, RecordMono r (test_async_embeddings inst r).1) ∧
    (∀ inst r, RecordMono r (test_dimension_consistency inst r).1) ∧
    (∀ ctor r, RecordMono r (emb_test_method_functionality ctor r).1) ∧
    (∀ r, RecordMono r (calculate_compatibility_score r)) ∧
    (∀ p1 p2 p3 p4, (∀ r, RecordMono r (p1 r).1) → (∀ r, RecordMono r (p2 r).1) →
      (∀ r, RecordMono r (p3 r).1) → (∀ r, RecordMono r (p4 r).1) →
      ∀ r, RecordMono r (run_all_tests p1 p2 p3 p4 r)) := by
  refine ⟨fun name ver ts => ⟨rfl, rfl, rfl, rfl⟩,
    fun α ctor r => (test_instantiation_uniform ctor).recordMono r,
    fun required cls r => (test_required_methods_uniform required cls).recordMono r,
    fun α ctor scen r => (test_error_handling_uniform ctor scen).recordMono r,
    fun inst r => (test_invoke_uniform inst).recordMono r,
    fun inst r => (test_ainvoke_uniform inst).recordMono r,
    fun inst r => (test_streaming_support_uniform inst).recordMono r,
    fun inst r => (test_bind_tools_support_uniform inst).recordMono r,
    fun inst r => (test_structured_output_uniform inst).recordMono r,
    fun ctor r => (llm_test_method_functionality_uniform ctor).recordMono r,
    fun inst r => (test_message_handling_uniform inst).recordMono r,
    fun inst r => (test_system_message_support_uniform inst).recordMono r,
    fun inst r => (test_conversation_handling_uniform inst).recordMono r,
    fun ctor r => (chat_test_method_functionality_uniform ctor).recordMono r,
    fun inst r => (test_embed_documents_uniform inst).recordMono r,
    fun inst r => (test_embed_query_uniform inst).recordMono r,
    fun inst r => (test_async_embeddings_uniform inst).recordMono r,
    fun inst r => (test_dimension_consistency_uniform inst).recordMono r,
    fun ctor r => (emb_test_method_functionality_uniform ctor).recordMono r,
    fun r => calculate_compatibility_score_recordMono r,
    fun p1 p2 p3 p4 h1 h2 h3 h4 r => run_all_tests_recordMono p1 p2 p3 p4 h1 h2 h3 h4 r⟩

/-- Witness for C9: a record whose tool-binding flag is already `true`
keeps it `true` through the invoke probe, and its errors list after the
probe extends the one before. -/
theorem flags_monotone_and_lists_append_only_witness :
    (test_invoke thousandChunkInst
      { initResult "W" "unknown" 0 with bind_tools_support := true }).1.bind_tools_support = true := by
  obtain ⟨-, -, -, -, hinv, -⟩ := flags_monotone_and_lists_append_only
  exact (hinv thousandChunkInst
    { initResult "W" "unknown" 0 with bind_tools_support := true }).1 rfl

end LCIH
